import Mathlib

/-!
Verification of the loan-portfolio ETL pipeline (transform and validated load).

The development shallowly embeds the Python source:
  - `src/etl/transform.py`   (DataTransformer)
  - `src/etl/load_sqlite.py` (SQLiteDataLoader)
  - `src/etl/load_ultra_simple.py` and `src/etl/pipeline.py` (column selection)

A pandas DataFrame is modelled as an ordered list of named, typed columns of
cells; pandas floats are modelled as exact rationals (`Rat`), `NaN`/`None`/`NaT`
as the single cell `Cell.null`, and a float infinity (which only division can
produce here) as `Cell.inf`.  Fallible Python code (exceptions) is modelled with
`Option`.
-/

-- ===================== Data model =====================

-- Calendar date (pandas Timestamp at midnight).
structure YMD where
  y : Nat
  m : Nat
  d : Nat
deriving DecidableEq

-- One scalar cell of a DataFrame.  `null` models NaN/None/NaT, `inf` a float
-- infinity (sign dropped; it only arises from division by zero).
inductive Cell where
  | null
  | int (i : Int)
  | real (r : Rat)
  | str (s : String)
  | date (d : YMD)
  | inf
deriving DecidableEq

-- Column dtype as pandas sees it: object (strings), numeric (int64/float64),
-- datetime64, or category.
inductive Dtype where
  | objectD
  | numericD
  | datetimeD
  | categoryD
deriving DecidableEq

structure Col where
  name : String
  dtype : Dtype
  cells : List Cell
deriving DecidableEq

structure Df where
  cols : List Col
deriving DecidableEq

-- Number of rows (pandas `len(df)`); all columns of a well-formed frame have
-- this length.
def nRows (df : Df) : Nat :=
  match df.cols with
  | [] => 0
  | c :: _ => c.cells.length

def findCol (df : Df) (nm : String) : Option Col :=
  df.cols.find? (fun c => decide (c.name = nm))

def hasCol (df : Df) (nm : String) : Bool :=
  df.cols.any (fun c => decide (c.name = nm))

def getColCells (df : Df) (nm : String) : List Cell :=
  match findCol df nm with
  | some c => c.cells
  | none => []

def dtypeOf (df : Df) (nm : String) : Dtype :=
  match findCol df nm with
  | some c => c.dtype
  | none => Dtype.objectD

-- Cell of column `nm` at row `i` (out of range reads as null).
def getCellAt (df : Df) (nm : String) (i : Nat) : Cell :=
  ((getColCells df nm).get? i).getD Cell.null

-- Pandas column assignment `df[name] = series`: replace the column in place if
-- the name exists, otherwise append it on the right.
def replaceCol (c : Col) : List Col → List Col
  | [] => []
  | x :: xs => if x.name = c.name then c :: xs else x :: replaceCol c xs

def setCol (df : Df) (c : Col) : Df :=
  if hasCol df c.name then ⟨replaceCol c df.cols⟩ else ⟨df.cols ++ [c]⟩

-- ===================== Generic helpers =====================

def countNulls (cells : List Cell) : Nat :=
  (cells.filter (fun c => decide (c = Cell.null))).length

def fillNull (v : Cell) (cells : List Cell) : List Cell :=
  cells.map (fun c => if c = Cell.null then v else c)

-- Numeric view of a cell (float/int); null, strings, dates and inf have none.
def toRatQ : Cell → Option Rat
  | Cell.int i => some (i : Rat)
  | Cell.real r => some r
  | _ => none

-- Python `sub in s` substring test.
def strContains (s pat : String) : Bool :=
  (List.range (s.data.length + 1)).any (fun i => pat.data.isPrefixOf (s.data.drop i))

-- Keep the elements of `xs` whose mask bit is true (row filtering).
def filterByMask : List Bool → List Cell → List Cell
  | b :: bs, x :: xs => if b then x :: filterByMask bs xs else filterByMask bs xs
  | _, _ => []

-- Insertion sort on rationals, for the pandas median.
def insertSorted (x : Rat) : List Rat → List Rat
  | [] => [x]
  | y :: ys => if x ≤ y then x :: y :: ys else y :: insertSorted x ys

def sortRats (xs : List Rat) : List Rat :=
  xs.foldr insertSorted []

-- Pandas `Series.median()`: sort the non-null values; middle element when odd,
-- mean of the two middle elements when even; no value when the series is empty.
def medianRat (xs : List Rat) : Option Rat :=
  let s := sortRats xs
  let n := s.length
  if n = 0 then none
  else if n % 2 = 1 then s.get? (n / 2)
  else
    match s.get? (n / 2 - 1), s.get? (n / 2) with
    | some a, some b => some ((a + b) / 2)
    | _, _ => none

def medianOfCells (cells : List Cell) : Option Rat :=
  medianRat (cells.filterMap toRatQ)

-- Lexicographic order on strings by code points (Python `<` on str, used by
-- pandas to sort mode candidates).
def charListLt : List Char → List Char → Bool
  | [], [] => false
  | [], _ :: _ => true
  | _ :: _, [] => false
  | a :: as, b :: bs => if a.val < b.val then true else if b.val < a.val then false else charListLt as bs

def strLtB (a b : String) : Bool :=
  charListLt a.data b.data

-- Pandas `Series.mode()[0]` on an object column: the most frequent string
-- value, ties broken by the smallest value; none when no non-null value exists.
def modeStr (cells : List Cell) : Option String :=
  let vals := cells.filterMap (fun c => match c with | Cell.str s => some s | _ => none)
  let uniq := vals.dedup
  let maxCount := (uniq.map (fun s => vals.count s)).foldr max 0
  let best := uniq.filter (fun s => decide (vals.count s = maxCount))
  best.foldl
    (fun acc s =>
      match acc with
      | none => some s
      | some t => if strLtB s t then some s else some t)
    none

-- ===================== Number and date parsing =====================

def digitsVal (l : List Char) : Nat :=
  l.foldl (fun acc c => 10 * acc + (c.toNat - 48)) 0

-- Model of `pd.to_numeric(s, errors='coerce')` on a single string: optional
-- sign, decimal digits, optional fraction; "nan" and unparsable text coerce to
-- null.  (Scientific notation never occurs on the modelled data paths.)
def parseNumStr (s : String) : Cell :=
  let t := s.trim
  if t.toLower = "nan" then Cell.null
  else
    let cs := t.data
    let (neg, cs1) : Bool × List Char :=
      match cs with
      | '-' :: r => (true, r)
      | '+' :: r => (false, r)
      | _ => (false, cs)
    let intPart := cs1.takeWhile Char.isDigit
    let rest := cs1.dropWhile Char.isDigit
    match rest with
    | [] =>
      if intPart.isEmpty then Cell.null
      else Cell.int ((if neg then -1 else 1) * (digitsVal intPart : Int))
    | '.' :: fr =>
      let fracPart := fr.takeWhile Char.isDigit
      if ¬(fr.dropWhile Char.isDigit).isEmpty then Cell.null
      else if intPart.isEmpty ∧ fracPart.isEmpty then Cell.null
      else
        let v : Rat := (digitsVal intPart : Rat) + (digitsVal fracPart : Rat) / ((10 : Rat) ^ fracPart.length)
        Cell.real (if neg then -v else v)
    | _ => Cell.null

def isLeapYear (y : Nat) : Bool :=
  y % 4 = 0 ∧ (y % 100 ≠ 0 ∨ y % 400 = 0)

def daysInMonth (y m : Nat) : Nat :=
  if m = 2 then (if isLeapYear y then 29 else 28)
  else if m = 4 ∨ m = 6 ∨ m = 9 ∨ m = 11 then 30
  else 31

def isValidYMD (d : YMD) : Bool :=
  1 ≤ d.m ∧ d.m ≤ 12 ∧ 1 ≤ d.d ∧ d.d ≤ daysInMonth d.y d.m

-- Day number of a civil date (proleptic Gregorian), used for `(a - b).dt.days`.
def daysFromCivil (dt : YMD) : Int :=
  let y : Int := (dt.y : Int) - (if dt.m ≤ 2 then 1 else 0)
  let m : Int := dt.m
  let d : Int := dt.d
  let era : Int := (if 0 ≤ y then y else y - 399) / 400
  let yoe : Int := y - era * 400
  let doy : Int := (153 * (m + (if 2 < m then -3 else 9)) + 2) / 5 + d - 1
  let doe : Int := yoe * 365 + yoe / 4 - yoe / 100 + doy
  era * 146097 + doe - 719468

-- The four strptime patterns tried by `_convert_date_columns`, in order.
inductive DatePat where
  | bY    -- "%b-%Y"   e.g. Dec-2018
  | Ymd   -- "%Y-%m-%d" e.g. 2018-12-01
  | mdY   -- "%m/%d/%Y" e.g. 12/01/2018
  | dmY   -- "%d-%m-%Y" e.g. 01-12-2018
deriving DecidableEq

def monthAbbrevs : List String :=
  ["jan", "feb", "mar", "apr", "may", "jun", "jul", "aug", "sep", "oct", "nov", "dec"]

def monthOfAbbrev (s : String) : Option Nat :=
  (monthAbbrevs.indexOf? s.toLower).map (· + 1)

-- Parse a run of 1 or 2 digits (strptime %m / %d).
def parse2Digits (cs : List Char) : Option (Nat × List Char) :=
  let ds := cs.takeWhile Char.isDigit
  if ds.length = 1 ∨ ds.length = 2 then some (digitsVal ds, cs.dropWhile Char.isDigit)
  else none

-- Parse exactly 4 digits (strptime %Y).
def parse4Digits (cs : List Char) : Option (Nat × List Char) :=
  let ds := cs.takeWhile Char.isDigit
  if ds.length = 4 then some (digitsVal ds, cs.dropWhile Char.isDigit)
  else none

def parseLit (c : Char) (cs : List Char) : Option (List Char) :=
  match cs with
  | x :: xs => if x = c then some xs else none
  | [] => none

-- strptime against one of the four fixed formats; the whole string must be
-- consumed and the date must be calendar-valid (strptime "%b" is
-- case-insensitive; day defaults to 1 for "%b-%Y").
def parseDatePat (p : DatePat) (s : String) : Option YMD :=
  let cs := s.data
  let checked : Option YMD → Option YMD := fun o =>
    match o with
    | some d => if isValidYMD d then some d else none
    | none => none
  match p with
  | DatePat.bY =>
    let letters := cs.takeWhile Char.isAlpha
    let rest := cs.dropWhile Char.isAlpha
    (match monthOfAbbrev ⟨letters⟩, parseLit '-' rest with
     | some m, some rest1 =>
       (match parse4Digits rest1 with
        | some (y, []) => checked (some ⟨y, m, 1⟩)
        | _ => none)
     | _, _ => none)
  | DatePat.Ymd =>
    (match parse4Digits cs with
     | some (y, r1) =>
       (match parseLit '-' r1 with
        | some r2 =>
          (match parse2Digits r2 with
           | some (m, r3) =>
             (match parseLit '-' r3 with
              | some r4 =>
                (match parse2Digits r4 with
                 | some (d, []) => checked (some ⟨y, m, d⟩)
                 | _ => none)
              | none => none)
           | none => none)
        | none => none)
     | none => none)
  | DatePat.mdY =>
    (match parse2Digits cs with
     | some (m, r1) =>
       (match parseLit '/' r1 with
        | some r2 =>
          (match parse2Digits r2 with
           | some (d, r3) =>
             (match parseLit '/' r3 with
              | some r4 =>
                (match parse4Digits r4 with
                 | some (y, []) => checked (some ⟨y, m, d⟩)
                 | _ => none)
              | none => none)
           | none => none)
        | none => none)
     | none => none)
  | DatePat.dmY =>
    (match parse2Digits cs with
     | some (d, r1) =>
       (match parseLit '-' r1 with
        | some r2 =>
          (match parse2Digits r2 with
           | some (m, r3) =>
             (match parseLit '-' r3 with
              | some r4 =>
                (match parse4Digits r4 with
                 | some (y, []) => checked (some ⟨y, m, d⟩)
                 | _ => none)
              | none => none)
           | none => none)
        | none => none)
     | none => none)

-- ===================== transform.py : DataTransformer =====================

-- Python `\s` whitespace (the characters relevant to column names).
def isPySpace (c : Char) : Bool :=
  c = ' ' ∨ c = '\t' ∨ c = '\n' ∨ c = '\r'

def isPyWord (c : Char) : Bool :=
  c.isAlphanum ∨ c = '_'

-- Collapse every whitespace run to a single underscore (re.sub(r'\s+', '_')).
def collapseSpaces : Bool → List Char → List Char
  | _, [] => []
  | prevSpace, c :: rest =>
    if isPySpace c then
      if prevSpace then collapseSpaces true rest
      else '_' :: collapseSpaces true rest
    else c :: collapseSpaces false rest

-- `_standardize_column_names` on one name: strip, lower-case, replace each
-- non-word non-space character with '_', then collapse whitespace runs to '_'.
def standardizeName (nm : String) : String :=
  let base := nm.trim.toLower
  let replaced := base.data.map (fun c => if isPyWord c ∨ isPySpace c then c else '_')
  ⟨collapseSpaces false replaced⟩

def standardizeColumnNames (df : Df) : Df :=
  ⟨df.cols.map (fun c => { c with name := standardizeName c.name })⟩

def criticalColumns : List String :=
  ["loan_amnt", "issue_d", "loan_status"]

def rateNamed (nm : String) : Bool :=
  strContains nm.toLower "rate" ∨ strContains nm.toLower "pct"

-- Per-column body of `_handle_missing_values` (lines 116-154): `n` is the row
-- count `len(df)`.  `fillna(median)` on an all-null column is a no-op because
-- the median of no values is NaN.
def imputeColumn (n : Nat) (c : Col) : Col :=
  let missing := countNulls c.cells
  if missing = 0 then c
  else
    let pct : Rat := ((missing : Rat) / (n : Rat)) * 100
    match c.dtype with
    | Dtype.objectD =>
      if 30 < pct then { c with cells := fillNull (Cell.str "UNKNOWN") c.cells }
      else { c with cells := fillNull (Cell.str ((modeStr c.cells).getD "UNKNOWN")) c.cells }
    | Dtype.numericD =>
      if 30 < pct then
        if rateNamed c.name then { c with cells := fillNull (Cell.real 0) c.cells }
        else
          match medianOfCells c.cells with
          | some m => { c with cells := fillNull (Cell.real m) c.cells }
          | none => c
      else
        match medianOfCells c.cells with
        | some m => { c with cells := fillNull (Cell.real m) c.cells }
        | none => c
    | Dtype.datetimeD => c   -- fillna(pd.NaT) leaves the nulls in place
    | Dtype.categoryD => c   -- no branch of the strategy matches this dtype

-- Row mask of `df.dropna(subset=critical_columns)`: a row is kept when every
-- critical column is non-null there.
def criticalMask (df : Df) : List Bool :=
  (List.range (nRows df)).map
    (fun i => criticalColumns.all (fun nm => decide (getCellAt df nm i ≠ Cell.null)))

-- `df.dropna(subset=critical_columns)`: drop every row that is still null in
-- some critical column.
def dropCriticalNullRows (df : Df) : Df :=
  ⟨df.cols.map (fun c => { c with cells := filterByMask (criticalMask df) c.cells })⟩

-- `_handle_missing_values`: impute per column, then drop rows still null in a
-- critical column.  Returns none on the two exception paths of the source: the
-- local `critical_columns` is only bound inside the per-column loop, so a frame
-- with no missing value at all raises NameError at the dropna call, and
-- dropna(subset=...) raises KeyError when a critical column is absent.
def handleMissingValues (df : Df) : Option Df :=
  let n := nRows df
  let anyMissing := df.cols.any (fun c => decide (countNulls c.cells ≠ 0))
  let df1 : Df := ⟨df.cols.map (imputeColumn n)⟩
  if ¬anyMissing then none
  else if ¬(criticalColumns.all (fun nm => hasCol df1 nm)) then none
  else some (dropCriticalNullRows df1)

-- Name fragments that make `_convert_data_types` treat a column as a date.
def dateTerms : List String :=
  ["date", "d_", "_d", "issue", "last_", "next_", "earliest"]

def isDateName (nm : String) : Bool :=
  dateTerms.any (fun t => strContains nm.toLower t)

def nuniqueCol (c : Col) : Nat :=
  ((c.cells.filter (fun x => decide (x ≠ Cell.null))).dedup).length

-- Cell-level model of `pd.to_numeric(series.astype(str).str.replace('%', ''),
-- errors='coerce')` for the int_rate / revol_util conversion.  A null prints as
-- "nan" and coerces back to null; numbers round-trip; a Timestamp's string form
-- is not numeric.
def percentToNumeric (c : Cell) : Cell :=
  match c with
  | Cell.null => Cell.null
  | Cell.str s => parseNumStr (s.replace "%" "")
  | Cell.int i => Cell.int i
  | Cell.real r => Cell.real r
  | Cell.inf => Cell.inf
  | Cell.date _ => Cell.null

def mapColByName (df : Df) (nm : String) (f : Col → Col) : Df :=
  ⟨df.cols.map (fun c => if c.name = nm then f c else c)⟩

-- `_convert_data_types`: classify columns (date-named / numeric / categorical),
-- convert int_rate and revol_util from "10.5%" text to numbers, and convert the
-- categorical columns to the category dtype.  Returns the frame and the
-- `self.date_columns` list consumed by `_convert_date_columns`.
def convertDataTypes (df : Df) : Df × List String :=
  let n := nRows df
  let dateCols := (df.cols.filter (fun c => isDateName c.name)).map (fun c => c.name)
  let catCols := (df.cols.filter
    (fun c => ¬isDateName c.name ∧ c.dtype = Dtype.objectD ∧
      nuniqueCol c < 50 ∧ (nuniqueCol c : Rat) < (n : Rat) * (1/10))).map (fun c => c.name)
  let df1 := if hasCol df "int_rate" then
      mapColByName df "int_rate" (fun c => ⟨c.name, Dtype.numericD, c.cells.map percentToNumeric⟩)
    else df
  let df2 := if hasCol df1 "revol_util" then
      mapColByName df1 "revol_util" (fun c => ⟨c.name, Dtype.numericD, c.cells.map percentToNumeric⟩)
    else df1
  let df3 := catCols.foldl (fun d nm => mapColByName d nm (fun c => { c with dtype := Dtype.categoryD })) df2
  (df3, dateCols)

-- `pd.to_datetime(series, format=pattern, errors='coerce')`: an already
-- datetime column is returned unchanged; otherwise every cell is parsed
-- against the pattern, unparsable cells coerce to null, and the column dtype
-- becomes datetime64.
def toDatetimePattern (p : DatePat) (c : Col) : Col :=
  if c.dtype = Dtype.datetimeD then c
  else
    ⟨c.name, Dtype.datetimeD,
      c.cells.map (fun cell =>
        match cell with
        | Cell.str s => (match parseDatePat p s with | some d => Cell.date d | none => Cell.null)
        | Cell.date d => Cell.date d
        | _ => Cell.null)⟩

def datePatterns : List DatePat :=
  [DatePat.bY, DatePat.Ymd, DatePat.mdY, DatePat.dmY]

-- The pattern loop of `_convert_date_columns`: each attempt assigns the
-- coerced column back before checking it, so a failed first pattern leaves an
-- all-null datetime column that later patterns can no longer recover.  The
-- final automatic-conversion fallback of the source is unreachable: the loop
-- always assigns (errors='coerce' never raises), so the dtype is datetime64.
def tryPatterns : List DatePat → Col → Col
  | [], c => c
  | p :: ps, c =>
    let c1 := toDatetimePattern p c
    if c1.cells.any (fun x => decide (x ≠ Cell.null)) then c1 else tryPatterns ps c1

def convertDateColumns (dateCols : List String) (df : Df) : Df :=
  ⟨df.cols.map (fun c => if dateCols.contains c.name then tryPatterns datePatterns c else c)⟩

-- Zero-padded decimal rendering for dates.
def pad2 (n : Nat) : String :=
  if n < 10 then "0" ++ toString n else toString n

def pad4 (n : Nat) : String :=
  if n < 10 then "000" ++ toString n
  else if n < 100 then "00" ++ toString n
  else if n < 1000 then "0" ++ toString n
  else toString n

def ymdToStr (d : YMD) : String :=
  pad4 d.y ++ "-" ++ pad2 d.m ++ "-" ++ pad2 d.d

-- Python `str(float)` for the exactly-representable decimals that model float
-- cells: render the terminating decimal expansion (always with at least one
-- fractional digit, as Python does); a non-decimal rational falls back to a
-- fraction form, which no modelled data path produces.
def ratToPyStr (r : Rat) : String :=
  let den := r.den
  match (List.range 40).find? (fun k => decide ((10 ^ k) % den = 0)) with
  | some k =>
    let sign := if r.num < 0 then "-" else ""
    let scaled : Nat := (r.num.natAbs * (10 ^ k)) / den
    let intPart := scaled / 10 ^ k
    let fracDigits := scaled % 10 ^ k
    let fracStr :=
      let raw := toString fracDigits
      let padded := String.mk (List.replicate (k - raw.length) '0') ++ raw
      let trimmed := String.mk (padded.data.reverse.dropWhile (fun c => c = '0')).reverse
      if trimmed = "" then "0" else trimmed
    sign ++ toString intPart ++ "." ++ fracStr
  | none => toString r.num ++ "/" ++ toString den

-- Python `str(x)` of a cell, as produced by `series.astype(str)`.
def cellToPyStr : Cell → String
  | Cell.null => "nan"
  | Cell.str s => s
  | Cell.int i => toString i
  | Cell.real r => ratToPyStr r
  | Cell.inf => "inf"
  | Cell.date d => ymdToStr d ++ " 00:00:00"

def nullStrings : List String :=
  ["nan", "none", "null", "na", ""]

def upperCaseCols : List String :=
  ["loan_status", "grade", "sub_grade", "emp_title"]

-- `_clean_text_columns` on one object column: astype(str) + strip, replace the
-- null-like strings by NaN, and upper-case the four fixed columns.
def cleanTextCol (c : Col) : Col :=
  let base := c.cells.map (fun cell =>
    let s := (cellToPyStr cell).trim
    if nullStrings.contains s then Cell.null else Cell.str s)
  let cells2 :=
    if upperCaseCols.contains c.name then
      base.map (fun cell => match cell with | Cell.str s => Cell.str s.toUpper | x => x)
    else base
  ⟨c.name, Dtype.objectD, cells2⟩

def cleanTextColumns (df : Df) : Df :=
  ⟨df.cols.map (fun c => if c.dtype = Dtype.objectD then cleanTextCol c else c)⟩

-- ===================== transform.py : derived features =====================

-- `pd.cut(x, bins=breaks ++ [inf], labels=labels, right=True)`: `breaks` are
-- the finite boundaries, the last interval is open-ended; `inclLowest` closes
-- the first interval on the left (include_lowest=True).
def labelAt (labels : List String) (i : Nat) : Cell :=
  match labels.get? i with
  | some l => Cell.str l
  | none => Cell.null

def findBin (labels : List String) (v : Rat) : List Rat → Nat → Cell
  | [], idx => labelAt labels idx
  | b :: more, idx => if v ≤ b then labelAt labels idx else findBin labels v more (idx + 1)

def cutCell (breaks : List Rat) (labels : List String) (inclLowest : Bool) (c : Cell) : Cell :=
  match toRatQ c with
  | none => Cell.null
  | some v =>
    match breaks with
    | [] => Cell.null
    | b0 :: rest =>
      if v < b0 then Cell.null
      else if v = b0 then (if inclLowest then labelAt labels 0 else Cell.null)
      else findBin labels v rest 0

def defaultStatuses : List String :=
  ["CHARGED OFF", "DEFAULT", "LATE (31-120 DAYS)", "LATE (16-30 DAYS)", "IN GRACE PERIOD"]

-- `series.isin(default_statuses)`: null is never in the set.
def isDefaultStatusCell (c : Cell) : Bool :=
  match c with
  | Cell.str s => decide (s ∈ defaultStatuses)
  | _ => false

def isDefaultFlag (c : Cell) : Int :=
  if isDefaultStatusCell c then 1 else 0

def isFullyPaidFlag (c : Cell) : Int :=
  if c = Cell.str "FULLY PAID" then 1 else 0

-- Feature 1: target labels is_default / is_fully_paid.
def addDefaultFlags (df : Df) : Df :=
  if hasCol df "loan_status" then
    let n := nRows df
    let df1 := setCol df ⟨"is_default", Dtype.numericD,
      (List.range n).map (fun i => Cell.int (isDefaultFlag (getCellAt df "loan_status" i)))⟩
    setCol df1 ⟨"is_fully_paid", Dtype.numericD,
      (List.range n).map (fun i => Cell.int (isFullyPaidFlag (getCellAt df1 "loan_status" i)))⟩
  else df

def incomeLabels : List String :=
  ["Très faible", "Faible", "Moyen", "Élevé", "Très élevé"]

-- Feature 2: income buckets.
def addIncomeCategory (df : Df) : Df :=
  if hasCol df "annual_inc" then
    setCol df ⟨"income_category", Dtype.categoryD,
      (List.range (nRows df)).map
        (fun i => cutCell [0, 30000, 60000, 100000, 200000] incomeLabels true
          (getCellAt df "annual_inc" i))⟩
  else df

-- `series.replace(0, np.nan)` on the divisor.
def replaceZeroNull (c : Cell) : Cell :=
  if toRatQ c = some 0 then Cell.null else c

-- Pandas float division of two cells: missing operands give NaN; x/0 gives
-- inf for x ≠ 0 and NaN for 0/0 (the inf case is what replace(0, nan) avoids).
def cellDiv (a b : Cell) : Cell :=
  match toRatQ a, toRatQ b with
  | some x, some y => if y = 0 then (if x = 0 then Cell.null else Cell.inf) else Cell.real (x / y)
  | _, _ => Cell.null

-- Feature 3: loan_to_income_ratio = loan_amnt / annual_inc.replace(0, nan).
def addRatioFeature (df : Df) : Df :=
  if hasCol df "loan_amnt" ∧ hasCol df "annual_inc" then
    setCol df ⟨"loan_to_income_ratio", Dtype.numericD,
      (List.range (nRows df)).map
        (fun i => cellDiv (getCellAt df "loan_amnt" i)
          (replaceZeroNull (getCellAt df "annual_inc" i)))⟩
  else df

def creditAgeLabels : List String :=
  ["0-2 ans", "2-5 ans", "5-10 ans", "10-20 ans", "20+ ans"]

-- Feature 4: credit age in years and its buckets, only when both date columns
-- parsed as datetimes.
def addCreditAge (df : Df) : Df :=
  if hasCol df "earliest_cr_line" ∧ hasCol df "issue_d" then
    if dtypeOf df "earliest_cr_line" = Dtype.datetimeD ∧ dtypeOf df "issue_d" = Dtype.datetimeD then
      let n := nRows df
      let df1 := setCol df ⟨"credit_age_years", Dtype.numericD,
        (List.range n).map (fun i =>
          match getCellAt df "issue_d" i, getCellAt df "earliest_cr_line" i with
          | Cell.date a, Cell.date b =>
            Cell.real (((daysFromCivil a - daysFromCivil b : Int) : Rat) / 365.25)
          | _, _ => Cell.null)⟩
      setCol df1 ⟨"credit_age_category", Dtype.categoryD,
        (List.range n).map (fun i =>
          cutCell [0, 2, 5, 10, 20] creditAgeLabels false
            (getCellAt df1 "credit_age_years" i))⟩
    else df
  else df

def gradeRiskMap : List (String × String) :=
  [("A", "Faible risque"), ("B", "Risque modéré"), ("C", "Risque moyen"),
   ("D", "Risque élevé"), ("E", "Risque très élevé"), ("F", "Risque extrême"),
   ("G", "Risque extrême")]

-- `series.map(dict)`: unmapped and non-string values give NaN.
def gradeRiskCell (c : Cell) : Cell :=
  match c with
  | Cell.str s =>
    (match gradeRiskMap.lookup s with
     | some r => Cell.str r
     | none => Cell.null)
  | _ => Cell.null

-- Feature 5: risk category from the grade letter.
def addRiskCategory (df : Df) : Df :=
  if hasCol df "grade" then
    setCol df ⟨"risk_category", Dtype.objectD,
      (List.range (nRows df)).map (fun i => gradeRiskCell (getCellAt df "grade" i))⟩
  else df

-- `_get_season`, applied to the issue_month value; any value outside the three
-- listed sets (including NaN) falls through to Automne.
def seasonCell (c : Cell) : Cell :=
  let isIn := fun (l : List Rat) =>
    match toRatQ c with
    | some v => l.any (fun x => decide (x = v))
    | none => false
  if isIn [12, 1, 2] then Cell.str "Hiver"
  else if isIn [3, 4, 5] then Cell.str "Printemps"
  else if isIn [6, 7, 8] then Cell.str "Été"
  else Cell.str "Automne"

-- Feature 6: calendar decomposition of issue_d, when it is a datetime column.
def addSeasonality (df : Df) : Df :=
  if hasCol df "issue_d" ∧ dtypeOf df "issue_d" = Dtype.datetimeD then
    let n := nRows df
    let yearOf := fun (c : Cell) => match c with | Cell.date d => Cell.int d.y | _ => Cell.null
    let monthOf := fun (c : Cell) => match c with | Cell.date d => Cell.int d.m | _ => Cell.null
    let quarterOf := fun (c : Cell) => match c with | Cell.date d => Cell.int ((d.m + 2) / 3) | _ => Cell.null
    let df1 := setCol df ⟨"issue_year", Dtype.numericD,
      (List.range n).map (fun i => yearOf (getCellAt df "issue_d" i))⟩
    let df2 := setCol df1 ⟨"issue_month", Dtype.numericD,
      (List.range n).map (fun i => monthOf (getCellAt df1 "issue_d" i))⟩
    let df3 := setCol df2 ⟨"issue_quarter", Dtype.numericD,
      (List.range n).map (fun i => quarterOf (getCellAt df2 "issue_d" i))⟩
    setCol df3 ⟨"issue_season", Dtype.objectD,
      (List.range n).map (fun i => seasonCell (getCellAt df3 "issue_month" i))⟩
  else df

def intRateLabels : List String :=
  ["0-5%", "5-10%", "10-15%", "15-20%", "20-30%", "30%+"]

-- Feature 7: interest-rate buckets.
def addIntRateCategory (df : Df) : Df :=
  if hasCol df "int_rate" then
    setCol df ⟨"int_rate_category", Dtype.categoryD,
      (List.range (nRows df)).map
        (fun i => cutCell [0, 5, 10, 15, 20, 30] intRateLabels false
          (getCellAt df "int_rate" i))⟩
  else df

-- `_create_derived_features`: the seven derivations in source order.
def createDerivedFeatures (df : Df) : Df :=
  addIntRateCategory (addSeasonality (addRiskCategory (addCreditAge
    (addRatioFeature (addIncomeCategory (addDefaultFlags df))))))

-- ===================== transform.py : validation and pipeline =====================

structure VReport where
  status : String
  issues : List String
  total_rows : Nat
  total_columns : Nat
  missing_values : Nat
  duplicate_rows : Nat
deriving DecidableEq

def rowAt (df : Df) (i : Nat) : List Cell :=
  df.cols.map (fun c => (c.cells.get? i).getD Cell.null)

-- `df.duplicated().sum()`: rows equal to some earlier row.
def countDuplicateRows (df : Df) : Nat :=
  let rows := (List.range (nRows df)).map (rowAt df)
  (List.range rows.length).countP
    (fun i => match rows.get? i with
      | some r => decide (r ∈ rows.take i)
      | none => false)

def totalMissing (df : Df) : Nat :=
  (df.cols.map (fun c => countNulls c.cells)).sum

def requiredColumns : List String :=
  ["loan_amnt", "int_rate", "issue_d", "loan_status", "is_default"]

-- `(df['annual_inc'] <= 0).sum()`: rows with a non-positive income (null
-- compares false).
def negIncomeCount (df : Df) : Nat :=
  (getColCells df "annual_inc").countP
    (fun c => match toRatQ c with | some v => decide (v ≤ 0) | none => false)

-- `_validate_cleaned_data`: status starts at PASS; only an empty frame or a
-- missing required column sets FAIL; data-quality findings (duplicates, too
-- many missing values, non-positive incomes) only append issues.
def validateCleanedData (df : Df) : VReport :=
  let n := nRows df
  let ncols := df.cols.length
  let missing := totalMissing df
  let dups := countDuplicateRows df
  let status1 := if n = 0 ∨ df.cols = [] then "FAIL" else "PASS"
  let issues1 : List String := if n = 0 ∨ df.cols = [] then ["DataFrame vide"] else []
  let issues2 := issues1 ++ (if 0 < dups then [toString dups ++ " lignes dupliquées"] else [])
  let issues3 := issues2 ++
    (if (n : Rat) * (ncols : Rat) * (5 / 100) < (missing : Rat)
      then ["Trop de valeurs manquantes: " ++ toString missing] else [])
  let missingRequired := requiredColumns.filter (fun nm => ¬hasCol df nm)
  let status2 := if missingRequired ≠ [] then "FAIL" else status1
  let issues4 := issues3 ++
    (if missingRequired ≠ []
      then ["Colonnes requises manquantes: " ++ String.intercalate ", " missingRequired] else [])
  let negIncome := if hasCol df "annual_inc" then negIncomeCount df else 0
  let issues5 := issues4 ++
    (if hasCol df "annual_inc" ∧ 0 < negIncome
      then [toString negIncome ++ " revenus annuels négatifs ou nuls"] else [])
  ⟨status2, issues5, n, ncols, missing, dups⟩

-- Cleaning configuration (section 6 of the spec).  The winsorizing step
-- (`remove_outliers`, disabled in the default configuration and in every
-- claim) clips to mean ± threshold·stddev; the standard deviation is a
-- floating-point square root and is not representable in this exact model, so
-- the configuration is modelled without that flag.
structure CleanConfig where
  handle_missing : Bool
  convert_dates : Bool
  create_features : Bool
deriving DecidableEq

def defaultCleanConfig : CleanConfig :=
  ⟨true, true, true⟩

-- `clean_loan_data`: the step sequence of the source with the default-shaped
-- configuration; `_validate_cleaned_data` is invoked for its report only and
-- does not alter the frame.
def cleanLoanData (cfg : CleanConfig) (df : Df) : Option Df :=
  let df1 := standardizeColumnNames df
  match (if cfg.handle_missing then handleMissingValues df1 else some df1) with
  | none => none
  | some df2 =>
    let p := convertDataTypes df2
    let df4 := if cfg.convert_dates then convertDateColumns p.2 p.1 else p.1
    let df5 := cleanTextColumns df4
    let df6 := if cfg.create_features then createDerivedFeatures df5 else df5
    some df6

-- ===================== load_sqlite.py : SQLiteDataLoader =====================

-- A destination SQLite table: column names and rows of cells.
structure SqlTable where
  names : List String
  rows : List (List Cell)
deriving DecidableEq

-- `for i in range(0, len(data), batch_size): data[i:i+batch_size]` — the batch
-- partition of `_insert_data_simple` (batch_size ≥ 1; Python's range raises on
-- a zero step).
def batchSlices (bs : Nat) : List (List Cell) → List (List (List Cell))
  | [] => []
  | x :: xs => ((x :: xs).take bs) :: batchSlices bs (xs.drop (bs - 1))
termination_by l => l.length
decreasing_by
  simp only [List.length_drop, List.length_cons]
  omega

-- One batch per transaction: `cursor.executemany(...); conn.commit()`;
-- `failsAt = some k` means the SQLite error is raised while executing the k-th
-- batch (0-based).  On failure the batch's transaction is rolled back — the
-- table keeps exactly the rows of the previously committed batches — and the
-- method returns False without retrying.  (A failure on the very first batch
-- additionally raises NameError on the logging line inside the handler; the
-- outer handler then performs the same rollback and also returns False.)
def runBatches : List (List (List Cell)) → Option Nat → List (List Cell) → List (List Cell) × Bool
  | [], _, acc => (acc, true)
  | _ :: _, some 0, acc => (acc, false)
  | b :: rest, some (k + 1), acc => runBatches rest (some k) (acc ++ b)
  | b :: rest, none, acc => runBatches rest none (acc ++ b)

def insertDataSimple (bs : Nat) (data : List (List Cell)) (failsAt : Option Nat) :
    List (List Cell) × Bool :=
  runBatches (batchSlices bs data) failsAt []

-- `_create_table_simple` type inference: SQL type from the first non-null
-- value of the column.
def firstNonNull (cells : List Cell) : Option Cell :=
  cells.find? (fun c => decide (c ≠ Cell.null))

def sqlTypeOfSample (c : Cell) : String :=
  match c with
  | Cell.int _ => "INTEGER"
  | Cell.real _ => "REAL"
  | Cell.inf => "REAL"
  | Cell.str s => if s.length = 10 ∧ s.data.get? 4 = some '-' then "DATE" else "TEXT"
  | Cell.date _ => "TEXT"
  | Cell.null => "TEXT"

def inferSqlType (cells : List Cell) : String :=
  match firstNonNull cells with
  | some v => sqlTypeOfSample v
  | none => "TEXT"

def createTableSimple (df : Df) : List (String × String) :=
  df.cols.map (fun c => (c.name, inferSqlType c.cells))

structure LoadValidation where
  success : Bool
  issues : List String
  actual_rows : Nat
  expected_rows : Nat
deriving DecidableEq

def loadCriticalColumns : List String :=
  ["loan_amnt", "int_rate", "loan_status"]

def tableNullCount (tbl : SqlTable) (nm : String) : Nat :=
  match tbl.names.indexOf? nm with
  | some j => tbl.rows.countP (fun r => decide ((r.get? j).getD Cell.null = Cell.null))
  | none => 0

-- `_validate_load`: success is cleared only by a row-count mismatch beyond the
-- 1% tolerance; null counts in the critical columns are recorded as issues
-- without touching success (a missing column's query error is swallowed).
def validateLoad (tbl : SqlTable) (expected : Nat) : LoadValidation :=
  let actual := tbl.rows.length
  let mismatch := (expected : Rat) * (1 / 100) < |(actual : Rat) - (expected : Rat)|
  let issues1 : List String :=
    if mismatch
      then ["Nombre de lignes incorrect: " ++ toString actual ++ " au lieu de " ++ toString expected]
      else []
  let issues2 := issues1 ++ (loadCriticalColumns.filterMap (fun nm =>
    if tbl.names.contains nm ∧ 0 < tableNullCount tbl nm
      then some ("Colonne " ++ nm ++ ": " ++ toString (tableNullCount tbl nm) ++ " valeurs NULL")
      else none))
  ⟨¬mismatch, issues2, actual, expected⟩

-- ===================== load_ultra_simple.py and pipeline.py =====================

-- Priority list of `load_to_sqlite_ultra_simple` (identical to the essential
-- list of `LoanETLPipeline._select_columns`).
def priorityCols : List String :=
  ["loan_amnt", "int_rate", "term", "grade", "issue_d",
   "loan_status", "annual_inc", "dti", "home_ownership",
   "emp_length", "purpose", "addr_state", "delinq_2yrs",
   "revol_util", "total_pymnt", "is_default", "is_fully_paid"]

-- Column selection of `load_to_sqlite_ultra_simple` (the loader invoked by the
-- pipeline through `run_simple_load`): with more than 20 input columns, keep
-- the existing priority columns and, when fewer than 15 of them exist, pad
-- with the earliest remaining columns up to 20.
def ultraSimpleSelect (cols : List String) : List String :=
  if 20 < cols.length then
    let keep := priorityCols.filter (fun c => cols.contains c)
    if keep.length < 15 then
      keep ++ (cols.filter (fun c => ¬keep.contains c)).take (20 - keep.length)
    else keep
  else cols

def additionalColumns : List String :=
  ["funded_amnt", "installment", "sub_grade", "verification_status",
   "earliest_cr_line", "inq_last_6mths", "open_acc", "pub_rec",
   "revol_bal", "total_acc", "total_rec_prncp", "total_rec_int",
   "last_pymnt_d", "last_pymnt_amnt"]

-- `LoanETLPipeline._select_columns`: the essential columns that exist, then
-- additional ones until max_columns (default 25) is reached.
def pipelineSelectColumns (cols : List String) (maxCols : Nat) : List String :=
  let essential := priorityCols.filter (fun c => cols.contains c)
  let additional := additionalColumns.filter (fun c => cols.contains c)
  essential ++ additional.take (maxCols - essential.length)

-- ===================== Spec-side definitions (refinement targets) =====================

-- Spec wording for the SQL DATE rule: a 10-character string matching the
-- YYYY-MM-DD pattern (four digits, dash, two digits, dash, two digits).
def matchesYYYYMMDD (s : String) : Bool :=
  decide (s.length = 10) &&
  (([0, 1, 2, 3, 5, 6, 8, 9] : List Nat).all
    (fun i => ((s.data.get? i).map Char.isDigit).getD false)) &&
  decide (s.data.get? 4 = some '-') && decide (s.data.get? 7 = some '-')

-- Spec-side imputation policy, written from the policy table of section 4.2 of
-- the spec: by column type, then by whether the missing percentage is at most
-- 30.  "categorical/text" columns fill with the mode (sentinel UNKNOWN when no
-- mode exists) at low missingness and with UNKNOWN beyond it; numeric columns
-- fill with the median, except rate/percentage-named columns beyond 30%, which
-- fill with 0; date columns are left null.
def specMissingPolicy (n : Nat) (c : Col) : Col :=
  let pctLe30 : Bool := decide (((countNulls c.cells : Rat) / (n : Rat)) * 100 ≤ 30)
  let fillWith : Cell → Col := fun v => { c with cells := fillNull v c.cells }
  let fillMedian : Col :=
    match medianOfCells c.cells with
    | some m => fillWith (Cell.real m)
    | none => c
  if countNulls c.cells = 0 then c
  else
    match c.dtype with
    | Dtype.objectD =>
      if pctLe30 then fillWith (Cell.str ((modeStr c.cells).getD "UNKNOWN"))
      else fillWith (Cell.str "UNKNOWN")
    | Dtype.numericD =>
      if pctLe30 then fillMedian
      else if rateNamed c.name then fillWith (Cell.real 0) else fillMedian
    | Dtype.datetimeD => c
    | Dtype.categoryD => c


-- ===================== Infrastructure lemmas =====================

lemma replaceCol_find_same (c : Col) (l : List Col) (h : ∃ x ∈ l, x.name = c.name) :
    (replaceCol c l).find? (fun x => decide (x.name = c.name)) = some c := by
  induction l with
  | nil => simp at h
  | cons x xs ih =>
    simp only [replaceCol]
    by_cases hx : x.name = c.name
    · rw [if_pos hx]
      rw [List.find?_cons_of_pos]
      simp
    · rw [if_neg hx]
      rw [List.find?_cons_of_neg _ (by simp [hx])]
      apply ih
      rcases h with ⟨y, hy, hyn⟩
      rcases List.mem_cons.mp hy with rfl | hmem
      · exact absurd hyn hx
      · exact ⟨y, hmem, hyn⟩

lemma replaceCol_find_other (c : Col) (nm : String) (hne : nm ≠ c.name) (l : List Col) :
    (replaceCol c l).find? (fun x => decide (x.name = nm)) =
      l.find? (fun x => decide (x.name = nm)) := by
  induction l with
  | nil => rfl
  | cons x xs ih =>
    simp only [replaceCol]
    by_cases hx : x.name = c.name
    · rw [if_pos hx]
      have h1 : ¬(c.name = nm) := fun hh => hne hh.symm
      have h2 : ¬(x.name = nm) := fun hh => hne ((hx ▸ hh).symm)
      rw [List.find?_cons_of_neg _ (by simp [h1]), List.find?_cons_of_neg _ (by simp [h2])]
    · rw [if_neg hx]
      by_cases hx2 : x.name = nm
      · rw [List.find?_cons_of_pos _ (by simp [hx2]), List.find?_cons_of_pos _ (by simp [hx2])]
      · rw [List.find?_cons_of_neg _ (by simp [hx2]), List.find?_cons_of_neg _ (by simp [hx2])]
        exact ih

lemma hasCol_eq_isSome (df : Df) (nm : String) : hasCol df nm = (findCol df nm).isSome := by
  unfold hasCol findCol
  induction df.cols with
  | nil => rfl
  | cons x xs ih =>
    by_cases hx : x.name = nm
    · rw [List.find?_cons_of_pos _ (by simp [hx])]
      simp [hx]
    · rw [List.find?_cons_of_neg _ (by simp [hx])]
      simpa [hx] using ih

lemma findCol_setCol_same (df : Df) (c : Col) : findCol (setCol df c) c.name = some c := by
  unfold setCol
  by_cases h : hasCol df c.name = true
  · rw [if_pos h]
    unfold findCol
    apply replaceCol_find_same
    unfold hasCol at h
    rw [List.any_eq_true] at h
    simpa using h
  · rw [if_neg h]
    have hnone : findCol df c.name = none := by
      rw [hasCol_eq_isSome] at h
      exact Option.not_isSome_iff_eq_none.mp (by simpa using h)
    unfold findCol at hnone ⊢
    rw [List.find?_append, hnone]
    simp [List.find?]

lemma findCol_setCol_other (df : Df) (c : Col) (nm : String) (hne : nm ≠ c.name) :
    findCol (setCol df c) nm = findCol df nm := by
  unfold setCol
  by_cases h : hasCol df c.name = true
  · rw [if_pos h]
    unfold findCol
    exact replaceCol_find_other c nm hne df.cols
  · rw [if_neg h]
    unfold findCol
    rw [List.find?_append]
    have hdec : decide (c.name = nm) = false :=
      decide_eq_false_iff_not.mpr (fun hh => hne hh.symm)
    have : List.find? (fun x => decide (x.name = nm)) [c] = none := by
      simp [List.find?, hdec]
    cases hf : df.cols.find? (fun x => decide (x.name = nm)) with
    | some v => rfl
    | none => simp [this]


lemma getColCells_setCol_same (df : Df) (c : Col) :
    getColCells (setCol df c) c.name = c.cells := by
  unfold getColCells
  rw [findCol_setCol_same]

lemma getColCells_setCol_other (df : Df) (c : Col) (nm : String) (hne : nm ≠ c.name) :
    getColCells (setCol df c) nm = getColCells df nm := by
  unfold getColCells
  rw [findCol_setCol_other df c nm hne]

lemma hasCol_setCol_other (df : Df) (c : Col) (nm : String) (hne : nm ≠ c.name) :
    hasCol (setCol df c) nm = hasCol df nm := by
  rw [hasCol_eq_isSome, hasCol_eq_isSome, findCol_setCol_other df c nm hne]

lemma dtypeOf_setCol_other (df : Df) (c : Col) (nm : String) (hne : nm ≠ c.name) :
    dtypeOf (setCol df c) nm = dtypeOf df nm := by
  unfold dtypeOf
  rw [findCol_setCol_other df c nm hne]

lemma getCellAt_setCol_other (df : Df) (c : Col) (nm : String) (hne : nm ≠ c.name) (i : Nat) :
    getCellAt (setCol df c) nm i = getCellAt df nm i := by
  unfold getCellAt
  rw [getColCells_setCol_other df c nm hne]

lemma setCol_cols_ne_nil (df : Df) (c : Col) : (setCol df c).cols ≠ [] := by
  unfold setCol
  by_cases h : hasCol df c.name = true
  · rw [if_pos h]
    cases hc : df.cols with
    | nil => unfold hasCol at h; rw [hc] at h; simp at h
    | cons x xs =>
      simp only [replaceCol]
      by_cases hx : x.name = c.name <;> simp [hx]
  · rw [if_neg h]
    simp

lemma nRows_setCol (df : Df) (c : Col) (hlen : c.cells.length = nRows df)
    (hne : df.cols ≠ []) : nRows (setCol df c) = nRows df := by
  unfold setCol
  by_cases h : hasCol df c.name = true
  · rw [if_pos h]
    rcases hc : df.cols with _ | ⟨x, xs⟩
    · exact absurd hc hne
    · show nRows ⟨replaceCol c (x :: xs)⟩ = nRows df
      simp only [replaceCol]
      by_cases hx : x.name = c.name
      · rw [if_pos hx]
        show c.cells.length = nRows df
        exact hlen
      · rw [if_neg hx]
        show x.cells.length = nRows df
        simp [nRows, hc]
  · rw [if_neg h]
    rcases hc : df.cols with _ | ⟨x, xs⟩
    · exact absurd hc hne
    · show nRows ⟨(x :: xs) ++ [c]⟩ = nRows df
      simp [nRows, hc]

-- ===================== Batch partition lemmas =====================

lemma batchSlices_nil (bs : Nat) : batchSlices bs ([] : List (List Cell)) = [] := by
  rw [batchSlices]

lemma batchSlices_cons (bs : Nat) (x : List Cell) (xs : List (List Cell)) :
    batchSlices bs (x :: xs) = ((x :: xs).take bs) :: batchSlices bs (xs.drop (bs - 1)) := by
  rw [batchSlices]

lemma batchSlices_join (bs : Nat) (hbs : 0 < bs) (l : List (List Cell)) :
    (batchSlices bs l).flatten = l := by
  generalize hn : l.length = n
  induction n using Nat.strong_induction_on generalizing l with
  | _ n ih =>
    cases l with
    | nil => simp [batchSlices_nil]
    | cons x xs =>
      rw [batchSlices_cons, List.flatten_cons]
      have hlt : (xs.drop (bs - 1)).length < n := by
        rw [List.length_drop]
        simp only [List.length_cons] at hn
        omega
      rw [ih _ hlt _ rfl]
      obtain ⟨b, rfl⟩ : ∃ b, bs = b + 1 := ⟨bs - 1, by omega⟩
      rw [List.take_succ_cons, Nat.add_sub_cancel, List.cons_append]
      rw [List.take_append_drop b xs]

lemma batchSlices_length (bs : Nat) (hbs : 0 < bs) (l : List (List Cell)) :
    (batchSlices bs l).length = (l.length + bs - 1) / bs := by
  generalize hn : l.length = n
  induction n using Nat.strong_induction_on generalizing l with
  | _ n ih =>
    cases l with
    | nil =>
      simp only [batchSlices_nil, List.length_nil]
      simp only [List.length_nil] at hn
      rw [Nat.div_eq_of_lt (by omega)]
    | cons x xs =>
      rw [batchSlices_cons]
      have hlt : (xs.drop (bs - 1)).length < n := by
        rw [List.length_drop]
        simp only [List.length_cons] at hn
        omega
      simp only [List.length_cons]
      rw [ih _ hlt _ rfl]
      simp only [List.length_drop]
      simp only [List.length_cons] at hn
      subst hn
      have h1 : xs.length + 1 + bs - 1 = xs.length + bs := by omega
      rw [h1, Nat.add_div_right _ hbs]
      rcases le_or_lt (bs - 1) xs.length with hle | hlt2
      · have h2 : xs.length - (bs - 1) + bs - 1 = xs.length := by omega
        rw [h2]
      · have h2 : xs.length - (bs - 1) = 0 := by omega
        rw [h2]
        rw [Nat.div_eq_of_lt (by omega), Nat.div_eq_of_lt (by omega)]

lemma runBatches_none (l : List (List (List Cell))) (acc : List (List Cell)) :
    runBatches l none acc = (acc ++ l.flatten, true) := by
  induction l generalizing acc with
  | nil => simp [runBatches]
  | cons b rest ih =>
    rw [runBatches, ih]
    simp

lemma runBatches_some (l : List (List (List Cell))) (k : Nat) (acc : List (List Cell))
    (hk : k < l.length) :
    runBatches l (some k) acc = (acc ++ (l.take k).flatten, false) := by
  induction l generalizing k acc with
  | nil => simp at hk
  | cons b rest ih =>
    cases k with
    | zero => simp [runBatches]
    | succ k =>
      rw [runBatches, ih _ _ (by simpa using hk)]
      simp

/-- C2: `_insert_data_simple` partitions the rows, in order, into
ceil(N/batch_size) batches (5 rows with batch_size 2 give 3 batches of sizes
2, 2, 1), commits one batch per transaction, and on a failing batch rolls back
only that batch — the table keeps exactly the rows of the previously committed
batches, the rows of the failing and of all later batches are absent — and
returns failure without retrying. -/
theorem C2_batched_insert (data : List (List Cell)) (bs k : Nat) (hbs : 0 < bs)
    (hk : k < (batchSlices bs data).length) :
    (batchSlices bs data).length = (data.length + bs - 1) / bs
    ∧ (batchSlices bs data).flatten = data
    ∧ insertDataSimple bs data (some k) = (((batchSlices bs data).take k).flatten, false)
    ∧ insertDataSimple bs data none = (data, true)
    ∧ (batchSlices 2 ((List.range 5).map (fun i => [Cell.int i]))).map List.length = [2, 2, 1] := by
  refine ⟨batchSlices_length bs hbs data, batchSlices_join bs hbs data, ?_, ?_, ?_⟩
  · unfold insertDataSimple
    rw [runBatches_some _ _ _ hk]
    simp
  · unfold insertDataSimple
    rw [runBatches_none]
    simp [batchSlices_join bs hbs data]
  · simp [batchSlices_nil, batchSlices_cons, List.range, List.range.loop]

/-- C2 witness: the scenario of the claim, 5 rows with batch size 2 and the
second batch failing: batch 1 stays committed, batches 2 and 3 are absent. -/
theorem C2_batched_insert_witness :
    insertDataSimple 2 ((List.range 5).map (fun i => [Cell.int i])) (some 1)
      = ([[Cell.int 0], [Cell.int 1]], false) := by
  have h := C2_batched_insert ((List.range 5).map (fun i => [Cell.int i])) 2 1 (by decide)
    (by simp [batchSlices_nil, batchSlices_cons, List.range, List.range.loop])
  rw [h.2.2.1]
  simp [batchSlices_nil, batchSlices_cons, List.range, List.range.loop]

-- ===================== C3 : post-load validation tolerance =====================

/-- C3: `_validate_load` reports success exactly when the stored row count is
within 1% of the expected count: success is false — and the row-count-mismatch
issue is recorded — precisely when |actual - expected| exceeds 1% of expected. -/
theorem C3_validate_load_tolerance (tbl : SqlTable) (expected : Nat) :
    ((validateLoad tbl expected).success = false ↔
      (expected : Rat) * (1 / 100) < |(tbl.rows.length : Rat) - (expected : Rat)|)
    ∧ ((expected : Rat) * (1 / 100) < |(tbl.rows.length : Rat) - (expected : Rat)| →
        ("Nombre de lignes incorrect: " ++ toString tbl.rows.length ++ " au lieu de "
          ++ toString expected) ∈ (validateLoad tbl expected).issues) := by
  unfold validateLoad
  constructor
  · by_cases h : (expected : Rat) * (1 / 100) < |(tbl.rows.length : Rat) - (expected : Rat)| <;>
      simp [h]
  · intro h
    have h' := h
    rw [one_div] at h'
    simp [h, h']

/-- C3 witness: 2 rows stored against 100 expected (98% off) fail validation
and record the mismatch issue. -/
theorem C3_validate_load_tolerance_witness :
    (validateLoad ⟨["loan_amnt"], [[Cell.int 0], [Cell.int 1]]⟩ 100).success = false
    ∧ "Nombre de lignes incorrect: 2 au lieu de 100"
        ∈ (validateLoad ⟨["loan_amnt"], [[Cell.int 0], [Cell.int 1]]⟩ 100).issues := by
  have h := C3_validate_load_tolerance ⟨["loan_amnt"], [[Cell.int 0], [Cell.int 1]]⟩ 100
  have hgap : (100 : Rat) * (1 / 100) <
      |((SqlTable.rows ⟨["loan_amnt"], [[Cell.int 0], [Cell.int 1]]⟩).length : Rat) - (100 : Rat)| := by
    show (100 : Rat) * (1 / 100) < |((2 : Nat) : Rat) - (100 : Rat)|
    norm_num
  refine ⟨h.1.mpr hgap, ?_⟩
  have h2 := h.2 hgap
  have heq : "Nombre de lignes incorrect: "
      ++ toString (SqlTable.rows ⟨["loan_amnt"], [[Cell.int 0], [Cell.int 1]]⟩).length
      ++ " au lieu de " ++ toString 100 = "Nombre de lignes incorrect: 2 au lieu de 100" := by
    decide
  exact heq ▸ h2

-- ===================== C4 : SQL type inference =====================

/-- C4 counterexample: the string "abcd-efghi" has 10 characters with a dash at
index 4, so `_create_table_simple` types its column DATE even though it does
not match the YYYY-MM-DD pattern claimed by the spec. -/
theorem C4_sql_type_counterexample :
    inferSqlType [Cell.str "abcd-efghi"] = "DATE" ∧ matchesYYYYMMDD "abcd-efghi" = false := by
  constructor <;> decide

/-- C4 amended: the SQL type is determined by the first non-null value —
INTEGER for an integer, REAL for a float, TEXT when no non-null value exists;
a string is typed DATE iff it has exactly 10 characters with a dash at index 4
(a strict superset of the YYYY-MM-DD pattern: every string matching the pattern
is typed DATE, but strings such as "abcd-efghi" are typed DATE as well). -/
theorem C4_sql_type_inference (cells : List Cell) :
    (firstNonNull cells = none → inferSqlType cells = "TEXT")
    ∧ (∀ i : Int, firstNonNull cells = some (Cell.int i) → inferSqlType cells = "INTEGER")
    ∧ (∀ r : Rat, firstNonNull cells = some (Cell.real r) → inferSqlType cells = "REAL")
    ∧ (∀ s : String, firstNonNull cells = some (Cell.str s) →
        (inferSqlType cells = "DATE" ↔ (s.length = 10 ∧ s.data.get? 4 = some '-')))
    ∧ (∀ s : String, matchesYYYYMMDD s = true → sqlTypeOfSample (Cell.str s) = "DATE") := by
  refine ⟨?_, ?_, ?_, ?_, ?_⟩
  · intro h
    unfold inferSqlType
    rw [h]
  · intro i h
    unfold inferSqlType
    rw [h]
    rfl
  · intro r h
    unfold inferSqlType
    rw [h]
    rfl
  · intro s h
    have hred : inferSqlType cells = sqlTypeOfSample (Cell.str s) := by
      unfold inferSqlType
      rw [h]
    rw [hred]
    show (if s.length = 10 ∧ s.data.get? 4 = some '-' then "DATE" else "TEXT") = "DATE"
      ↔ (s.length = 10 ∧ s.data.get? 4 = some '-')
    by_cases hc : s.length = 10 ∧ s.data.get? 4 = some '-'
    · simp [hc]
    · rw [if_neg hc]
      constructor
      · intro habs
        exact absurd habs (by decide)
      · intro hcond
        exact absurd hcond hc
  · intro s hm
    unfold matchesYYYYMMDD at hm
    simp only [Bool.and_eq_true, decide_eq_true_eq] at hm
    show (if s.length = 10 ∧ s.data.get? 4 = some '-' then "DATE" else "TEXT") = "DATE"
    rw [if_pos ⟨hm.1.1.1, hm.1.2⟩]

/-- C4 amended witness: a genuine YYYY-MM-DD string is typed DATE. -/
theorem C4_sql_type_inference_witness :
    inferSqlType [Cell.str "2018-12-01"] = "DATE" := by
  have h := (C4_sql_type_inference [Cell.str "2018-12-01"]).2.2.2.1 "2018-12-01" (by decide)
  exact h.mpr (by decide)

-- ===================== C10 : ultra-simple loader column cap =====================

/-- C10: for any input with more than 20 columns, the loader invoked by the
pipeline (`load_to_sqlite_ultra_simple` via `run_simple_load`) persists at most
20 columns: the existing priority-list columns first and, when fewer than 15 of
them exist, the earliest remaining columns as padding; at least one selected
column is silently dropped, while the transform stage itself allows up to 25
columns (the default `max_columns`), as a full 25-column selection shows. -/
theorem C10_ultra_simple_column_cap (cols : List String) (h : 20 < cols.length) :
    (ultraSimpleSelect cols).take (priorityCols.filter (fun c => cols.contains c)).length
        = priorityCols.filter (fun c => cols.contains c)
    ∧ ((priorityCols.filter (fun c => cols.contains c)).length < 15 →
        (ultraSimpleSelect cols).drop (priorityCols.filter (fun c => cols.contains c)).length
          = (cols.filter (fun c => ¬(priorityCols.filter (fun c2 => cols.contains c2)).contains c)).take
              (20 - (priorityCols.filter (fun c => cols.contains c)).length))
    ∧ (∀ c ∈ ultraSimpleSelect cols, c ∈ cols)
    ∧ (ultraSimpleSelect cols).length ≤ 20
    ∧ (ultraSimpleSelect cols).length < cols.length
    ∧ (pipelineSelectColumns (priorityCols ++ additionalColumns) 25).length = 25 := by
  have hkle : (priorityCols.filter (fun c => cols.contains c)).length ≤ 17 := by
    have := List.length_filter_le (fun c => cols.contains c) priorityCols
    simpa using this
  unfold ultraSimpleSelect
  rw [if_pos h]
  by_cases hk : (priorityCols.filter (fun c => cols.contains c)).length < 15
  · rw [if_pos hk]
    have hlen : (priorityCols.filter (fun c => cols.contains c) ++
        (cols.filter (fun c => ¬(priorityCols.filter (fun c2 => cols.contains c2)).contains c)).take
          (20 - (priorityCols.filter (fun c => cols.contains c)).length)).length ≤ 20 := by
      rw [List.length_append]
      have := List.length_take_le
        (20 - (priorityCols.filter (fun c => cols.contains c)).length)
        (cols.filter (fun c => ¬(priorityCols.filter (fun c2 => cols.contains c2)).contains c))
      omega
    refine ⟨List.take_left _ _, fun _ => ?_, ?_, hlen, by omega, by decide⟩
    · exact List.drop_left _ _
    · intro c hc
      rcases List.mem_append.mp hc with hmem | hmem
      · have h2 := (List.mem_filter.mp hmem).2
        simpa using h2
      · have h2 := List.take_subset _ _ hmem
        exact (List.mem_filter.mp h2).1
  · rw [if_neg hk]
    refine ⟨List.take_length _, fun hcon => absurd hcon hk, ?_, by omega, by omega, by decide⟩
    intro c hc
    have h2 := (List.mem_filter.mp hc).2
    simpa using h2

/-- C10 witness: 21 generic columns, none from the priority list, are cut down
to the first 20. -/
theorem C10_ultra_simple_column_cap_witness :
    (ultraSimpleSelect ((List.range 21).map (fun i => "c" ++ toString i))).length ≤ 20
    ∧ (ultraSimpleSelect ((List.range 21).map (fun i => "c" ++ toString i))).length
        < ((List.range 21).map (fun i => "c" ++ toString i)).length := by
  have h := C10_ultra_simple_column_cap ((List.range 21).map (fun i => "c" ++ toString i))
    (by simp)
  exact ⟨h.2.2.2.1, h.2.2.2.2.1⟩

-- ===================== Derived-feature step lemmas =====================

lemma presAddDefaultFlags (df : Df) (nm : String) (h1 : nm ≠ "is_default")
    (h2 : nm ≠ "is_fully_paid") :
    getColCells (addDefaultFlags df) nm = getColCells df nm
    ∧ hasCol (addDefaultFlags df) nm = hasCol df nm
    ∧ dtypeOf (addDefaultFlags df) nm = dtypeOf df nm := by
  unfold addDefaultFlags
  by_cases hc : hasCol df "loan_status" = true
  · rw [if_pos hc]
    refine ⟨?_, ?_, ?_⟩
    · rw [getColCells_setCol_other _ _ _ h2, getColCells_setCol_other _ _ _ h1]
    · rw [hasCol_setCol_other _ _ _ h2, hasCol_setCol_other _ _ _ h1]
    · rw [dtypeOf_setCol_other _ _ _ h2, dtypeOf_setCol_other _ _ _ h1]
  · rw [if_neg hc]
    exact ⟨rfl, rfl, rfl⟩

lemma presAddIncomeCategory (df : Df) (nm : String) (h : nm ≠ "income_category") :
    getColCells (addIncomeCategory df) nm = getColCells df nm
    ∧ hasCol (addIncomeCategory df) nm = hasCol df nm
    ∧ dtypeOf (addIncomeCategory df) nm = dtypeOf df nm := by
  unfold addIncomeCategory
  by_cases hc : hasCol df "annual_inc" = true
  · rw [if_pos hc]
    exact ⟨getColCells_setCol_other _ _ _ h, hasCol_setCol_other _ _ _ h,
      dtypeOf_setCol_other _ _ _ h⟩
  · rw [if_neg hc]
    exact ⟨rfl, rfl, rfl⟩

lemma presAddRatioFeature (df : Df) (nm : String) (h : nm ≠ "loan_to_income_ratio") :
    getColCells (addRatioFeature df) nm = getColCells df nm
    ∧ hasCol (addRatioFeature df) nm = hasCol df nm
    ∧ dtypeOf (addRatioFeature df) nm = dtypeOf df nm := by
  unfold addRatioFeature
  by_cases hc : hasCol df "loan_amnt" = true ∧ hasCol df "annual_inc" = true
  · rw [if_pos hc]
    exact ⟨getColCells_setCol_other _ _ _ h, hasCol_setCol_other _ _ _ h,
      dtypeOf_setCol_other _ _ _ h⟩
  · rw [if_neg hc]
    exact ⟨rfl, rfl, rfl⟩

lemma presAddCreditAge (df : Df) (nm : String) (h1 : nm ≠ "credit_age_years")
    (h2 : nm ≠ "credit_age_category") :
    getColCells (addCreditAge df) nm = getColCells df nm
    ∧ hasCol (addCreditAge df) nm = hasCol df nm
    ∧ dtypeOf (addCreditAge df) nm = dtypeOf df nm := by
  unfold addCreditAge
  by_cases hc : hasCol df "earliest_cr_line" = true ∧ hasCol df "issue_d" = true
  · rw [if_pos hc]
    by_cases hd : dtypeOf df "earliest_cr_line" = Dtype.datetimeD
      ∧ dtypeOf df "issue_d" = Dtype.datetimeD
    · rw [if_pos hd]
      refine ⟨?_, ?_, ?_⟩
      · rw [getColCells_setCol_other _ _ _ h2, getColCells_setCol_other _ _ _ h1]
      · rw [hasCol_setCol_other _ _ _ h2, hasCol_setCol_other _ _ _ h1]
      · rw [dtypeOf_setCol_other _ _ _ h2, dtypeOf_setCol_other _ _ _ h1]
    · rw [if_neg hd]
      exact ⟨rfl, rfl, rfl⟩
  · rw [if_neg hc]
    exact ⟨rfl, rfl, rfl⟩

lemma presAddRiskCategory (df : Df) (nm : String) (h : nm ≠ "risk_category") :
    getColCells (addRiskCategory df) nm = getColCells df nm
    ∧ hasCol (addRiskCategory df) nm = hasCol df nm
    ∧ dtypeOf (addRiskCategory df) nm = dtypeOf df nm := by
  unfold addRiskCategory
  by_cases hc : hasCol df "grade" = true
  · rw [if_pos hc]
    exact ⟨getColCells_setCol_other _ _ _ h, hasCol_setCol_other _ _ _ h,
      dtypeOf_setCol_other _ _ _ h⟩
  · rw [if_neg hc]
    exact ⟨rfl, rfl, rfl⟩

lemma presAddSeasonality (df : Df) (nm : String) (h1 : nm ≠ "issue_year")
    (h2 : nm ≠ "issue_month") (h3 : nm ≠ "issue_quarter") (h4 : nm ≠ "issue_season") :
    getColCells (addSeasonality df) nm = getColCells df nm
    ∧ hasCol (addSeasonality df) nm = hasCol df nm
    ∧ dtypeOf (addSeasonality df) nm = dtypeOf df nm := by
  unfold addSeasonality
  by_cases hc : hasCol df "issue_d" = true ∧ dtypeOf df "issue_d" = Dtype.datetimeD
  · rw [if_pos hc]
    refine ⟨?_, ?_, ?_⟩
    · rw [getColCells_setCol_other _ _ _ h4, getColCells_setCol_other _ _ _ h3,
        getColCells_setCol_other _ _ _ h2, getColCells_setCol_other _ _ _ h1]
    · rw [hasCol_setCol_other _ _ _ h4, hasCol_setCol_other _ _ _ h3,
        hasCol_setCol_other _ _ _ h2, hasCol_setCol_other _ _ _ h1]
    · rw [dtypeOf_setCol_other _ _ _ h4, dtypeOf_setCol_other _ _ _ h3,
        dtypeOf_setCol_other _ _ _ h2, dtypeOf_setCol_other _ _ _ h1]
  · rw [if_neg hc]
    exact ⟨rfl, rfl, rfl⟩

lemma presAddIntRateCategory (df : Df) (nm : String) (h : nm ≠ "int_rate_category") :
    getColCells (addIntRateCategory df) nm = getColCells df nm
    ∧ hasCol (addIntRateCategory df) nm = hasCol df nm
    ∧ dtypeOf (addIntRateCategory df) nm = dtypeOf df nm := by
  unfold addIntRateCategory
  by_cases hc : hasCol df "int_rate" = true
  · rw [if_pos hc]
    exact ⟨getColCells_setCol_other _ _ _ h, hasCol_setCol_other _ _ _ h,
      dtypeOf_setCol_other _ _ _ h⟩
  · rw [if_neg hc]
    exact ⟨rfl, rfl, rfl⟩

lemma rowsAddDefaultFlags (df : Df) (hne : df.cols ≠ []) :
    nRows (addDefaultFlags df) = nRows df ∧ (addDefaultFlags df).cols ≠ [] := by
  unfold addDefaultFlags
  by_cases hc : hasCol df "loan_status" = true
  · rw [if_pos hc]
    have e1 : nRows (setCol df ⟨"is_default", Dtype.numericD,
        (List.range (nRows df)).map (fun i => Cell.int (isDefaultFlag (getCellAt df "loan_status" i)))⟩)
        = nRows df := nRows_setCol _ _ (by simp) hne
    refine ⟨?_, setCol_cols_ne_nil _ _⟩
    rw [nRows_setCol _ _ (by simp [e1]) (setCol_cols_ne_nil _ _), e1]
  · rw [if_neg hc]
    exact ⟨rfl, hne⟩

lemma rowsAddIncomeCategory (df : Df) (hne : df.cols ≠ []) :
    nRows (addIncomeCategory df) = nRows df ∧ (addIncomeCategory df).cols ≠ [] := by
  unfold addIncomeCategory
  by_cases hc : hasCol df "annual_inc" = true
  · rw [if_pos hc]
    exact ⟨nRows_setCol _ _ (by simp) hne, setCol_cols_ne_nil _ _⟩
  · rw [if_neg hc]
    exact ⟨rfl, hne⟩

lemma rowsAddRatioFeature (df : Df) (hne : df.cols ≠ []) :
    nRows (addRatioFeature df) = nRows df ∧ (addRatioFeature df).cols ≠ [] := by
  unfold addRatioFeature
  by_cases hc : hasCol df "loan_amnt" = true ∧ hasCol df "annual_inc" = true
  · rw [if_pos hc]
    exact ⟨nRows_setCol _ _ (by simp) hne, setCol_cols_ne_nil _ _⟩
  · rw [if_neg hc]
    exact ⟨rfl, hne⟩

lemma addDefaultFlags_flags (df : Df) (h : hasCol df "loan_status" = true) :
    getColCells (addDefaultFlags df) "is_default"
      = (List.range (nRows df)).map
          (fun i => Cell.int (isDefaultFlag (getCellAt df "loan_status" i)))
    ∧ getColCells (addDefaultFlags df) "is_fully_paid"
      = (List.range (nRows df)).map
          (fun i => Cell.int (isFullyPaidFlag (getCellAt df "loan_status" i))) := by
  unfold addDefaultFlags
  rw [if_pos h]
  constructor
  · rw [getColCells_setCol_other _ _ _
      (show ("is_default" : String) ≠ "is_fully_paid" from by decide), getColCells_setCol_same]
  · rw [getColCells_setCol_same]
    apply List.map_congr_left
    intro a ha
    rw [getCellAt_setCol_other _ _ _
      (show ("loan_status" : String) ≠ "is_default" from by decide)]

lemma addRatioFeature_cells (df : Df) (h1 : hasCol df "loan_amnt" = true)
    (h2 : hasCol df "annual_inc" = true) :
    getColCells (addRatioFeature df) "loan_to_income_ratio"
      = (List.range (nRows df)).map
          (fun i => cellDiv (getCellAt df "loan_amnt" i)
            (replaceZeroNull (getCellAt df "annual_inc" i))) := by
  unfold addRatioFeature
  rw [if_pos ⟨h1, h2⟩]
  rw [getColCells_setCol_same]

lemma cellDiv_null_right (a : Cell) : cellDiv a Cell.null = Cell.null := by
  unfold cellDiv
  cases a <;> rfl

lemma cellDiv_replaceZero_ne_inf (a b : Cell) : cellDiv a (replaceZeroNull b) ≠ Cell.inf := by
  unfold replaceZeroNull
  by_cases hb : toRatQ b = some 0
  · rw [if_pos hb, cellDiv_null_right]
    decide
  · rw [if_neg hb]
    unfold cellDiv
    rcases hta : toRatQ a with _ | x <;> rcases htb : toRatQ b with _ | y
    · decide
    · exact (by decide : Cell.null ≠ Cell.inf)
    · exact (by decide : Cell.null ≠ Cell.inf)
    · have hy : y ≠ 0 := fun hz => hb (hz ▸ htb)
      show (if y = 0 then (if x = 0 then Cell.null else Cell.inf) else Cell.real (x / y)) ≠ Cell.inf
      rw [if_neg hy]
      simp

lemma createDerived_ratio_cells (df : Df) (h1 : hasCol df "loan_amnt" = true)
    (h2 : hasCol df "annual_inc" = true) :
    getColCells (createDerivedFeatures df) "loan_to_income_ratio"
      = (List.range (nRows df)).map
          (fun i => cellDiv (getCellAt df "loan_amnt" i)
            (replaceZeroNull (getCellAt df "annual_inc" i))) := by
  have hne : df.cols ≠ [] := by
    intro hnil
    unfold hasCol at h1
    rw [hnil] at h1
    simp at h1
  have pA := presAddDefaultFlags df "loan_amnt" (by decide) (by decide)
  have pA2 := presAddDefaultFlags df "annual_inc" (by decide) (by decide)
  have pB := presAddIncomeCategory (addDefaultFlags df) "loan_amnt" (by decide)
  have pB2 := presAddIncomeCategory (addDefaultFlags df) "annual_inc" (by decide)
  have rA := rowsAddDefaultFlags df hne
  have rB := rowsAddIncomeCategory (addDefaultFlags df) rA.2
  unfold createDerivedFeatures
  rw [(presAddIntRateCategory _ _ (by decide)).1]
  rw [(presAddSeasonality _ _ (by decide) (by decide) (by decide) (by decide)).1]
  rw [(presAddRiskCategory _ _ (by decide)).1]
  rw [(presAddCreditAge _ _ (by decide) (by decide)).1]
  rw [addRatioFeature_cells _ (by rw [pB.2.1, pA.2.1]; exact h1)
    (by rw [pB2.2.1, pA2.2.1]; exact h2)]
  rw [rB.1, rA.1]
  apply List.map_congr_left
  intro a ha
  unfold getCellAt
  rw [pB.1, pA.1, pB2.1, pA2.1]

lemma createDerived_flag_cells (df : Df) (h : hasCol df "loan_status" = true) :
    getColCells (createDerivedFeatures df) "is_default"
      = (List.range (nRows df)).map
          (fun i => Cell.int (isDefaultFlag (getCellAt df "loan_status" i)))
    ∧ getColCells (createDerivedFeatures df) "is_fully_paid"
      = (List.range (nRows df)).map
          (fun i => Cell.int (isFullyPaidFlag (getCellAt df "loan_status" i))) := by
  unfold createDerivedFeatures
  constructor
  · rw [(presAddIntRateCategory _ _ (by decide)).1,
      (presAddSeasonality _ _ (by decide) (by decide) (by decide) (by decide)).1,
      (presAddRiskCategory _ _ (by decide)).1,
      (presAddCreditAge _ _ (by decide) (by decide)).1,
      (presAddRatioFeature _ _ (by decide)).1,
      (presAddIncomeCategory _ _ (by decide)).1,
      (addDefaultFlags_flags df h).1]
  · rw [(presAddIntRateCategory _ _ (by decide)).1,
      (presAddSeasonality _ _ (by decide) (by decide) (by decide) (by decide)).1,
      (presAddRiskCategory _ _ (by decide)).1,
      (presAddCreditAge _ _ (by decide) (by decide)).1,
      (presAddRatioFeature _ _ (by decide)).1,
      (presAddIncomeCategory _ _ (by decide)).1,
      (addDefaultFlags_flags df h).2]

lemma flagsExclusive (c : Cell) : ¬(isDefaultFlag c = 1 ∧ isFullyPaidFlag c = 1) := by
  rintro ⟨h1, h2⟩
  by_cases hc : c = Cell.str "FULLY PAID"
  · subst hc
    exact absurd h1 (by decide)
  · unfold isFullyPaidFlag at h2
    rw [if_neg hc] at h2
    exact absurd h2 (by decide)

-- ===================== C7 : loan-to-income ratio =====================

/-- C7: whenever loan_amnt and annual_inc are both present, the derived
loan_to_income_ratio at a row equals loan_amnt / annual_inc when annual_inc is
a nonzero number, is null when annual_inc is zero or null, and is never an
infinity. -/
theorem C7_loan_income_ratio (df : Df) (h1 : hasCol df "loan_amnt" = true)
    (h2 : hasCol df "annual_inc" = true) (i : Nat) (hi : i < nRows df) :
    ((getCellAt df "annual_inc" i = Cell.null ∨ toRatQ (getCellAt df "annual_inc" i) = some 0) →
      getCellAt (createDerivedFeatures df) "loan_to_income_ratio" i = Cell.null)
    ∧ (∀ v u : Rat, toRatQ (getCellAt df "annual_inc" i) = some v → v ≠ 0 →
        toRatQ (getCellAt df "loan_amnt" i) = some u →
        getCellAt (createDerivedFeatures df) "loan_to_income_ratio" i = Cell.real (u / v))
    ∧ getCellAt (createDerivedFeatures df) "loan_to_income_ratio" i ≠ Cell.inf := by
  have hval : getCellAt (createDerivedFeatures df) "loan_to_income_ratio" i
      = cellDiv (getCellAt df "loan_amnt" i) (replaceZeroNull (getCellAt df "annual_inc" i)) := by
    unfold getCellAt
    rw [createDerived_ratio_cells df h1 h2, List.get?_map, List.get?_range hi]
    rfl
  rw [hval]
  refine ⟨?_, ?_, cellDiv_replaceZero_ne_inf _ _⟩
  · rintro (hz | hz)
    · rw [hz]
      have : replaceZeroNull Cell.null = Cell.null := rfl
      rw [this, cellDiv_null_right]
    · have : replaceZeroNull (getCellAt df "annual_inc" i) = Cell.null := by
        unfold replaceZeroNull
        rw [if_pos hz]
      rw [this, cellDiv_null_right]
  · intro v u hv hvne hu
    have hrz : replaceZeroNull (getCellAt df "annual_inc" i) = getCellAt df "annual_inc" i := by
      unfold replaceZeroNull
      rw [if_neg]
      intro hc
      rw [hv] at hc
      exact hvne (Option.some.inj hc)
    rw [hrz]
    unfold cellDiv
    rw [hu, hv]
    show (if v = 0 then (if u = 0 then Cell.null else Cell.inf) else Cell.real (u / v))
      = Cell.real (u / v)
    rw [if_neg hvne]

/-- C7 witness: the spec's Scenario B — annual_inc 0 with loan_amnt 5000 gives
a null ratio, not an arithmetic error. -/
theorem C7_loan_income_ratio_witness :
    getCellAt (createDerivedFeatures
      ⟨[⟨"loan_amnt", Dtype.numericD, [Cell.int 5000]⟩,
        ⟨"annual_inc", Dtype.numericD, [Cell.int 0]⟩]⟩) "loan_to_income_ratio" 0 = Cell.null := by
  have h := C7_loan_income_ratio
    ⟨[⟨"loan_amnt", Dtype.numericD, [Cell.int 5000]⟩,
      ⟨"annual_inc", Dtype.numericD, [Cell.int 0]⟩]⟩ (by decide) (by decide) 0 (by decide)
  exact h.1 (Or.inr (by decide))

-- ===================== C9 : mutually exclusive target labels =====================

/-- C9: is_default is 1 exactly on the fixed default-status set, is_fully_paid
is 1 exactly on FULLY PAID, the two conditions are mutually exclusive, and in
the derived frame the two flags are never both 1 at the same row. -/
theorem C9_default_fully_paid_exclusive :
    (∀ c : Cell,
      ¬(isDefaultFlag c = 1 ∧ isFullyPaidFlag c = 1)
      ∧ (isDefaultFlag c = 1 ↔ ∃ s, c = Cell.str s ∧ s ∈ defaultStatuses)
      ∧ (isFullyPaidFlag c = 1 ↔ c = Cell.str "FULLY PAID"))
    ∧ ∀ (df : Df) (i : Nat), hasCol df "loan_status" = true →
        ¬(getCellAt (createDerivedFeatures df) "is_default" i = Cell.int 1
          ∧ getCellAt (createDerivedFeatures df) "is_fully_paid" i = Cell.int 1) := by
  constructor
  · intro c
    refine ⟨flagsExclusive c, ?_, ?_⟩
    · cases c with
      | str s =>
        by_cases hs : s ∈ defaultStatuses
        · simp [isDefaultFlag, isDefaultStatusCell, hs]
        · simp [isDefaultFlag, isDefaultStatusCell, hs]
      | null => simp [isDefaultFlag, isDefaultStatusCell]
      | int j => simp [isDefaultFlag, isDefaultStatusCell]
      | real r => simp [isDefaultFlag, isDefaultStatusCell]
      | date d => simp [isDefaultFlag, isDefaultStatusCell]
      | inf => simp [isDefaultFlag, isDefaultStatusCell]
    · unfold isFullyPaidFlag
      by_cases hc : c = Cell.str "FULLY PAID"
      · simp [hc]
      · rw [if_neg hc]
        simp [hc]
  · intro df i h
    rintro ⟨hd, hf⟩
    have hc := createDerived_flag_cells df h
    by_cases hi : i < nRows df
    · have e1 : getCellAt (createDerivedFeatures df) "is_default" i
          = Cell.int (isDefaultFlag (getCellAt df "loan_status" i)) := by
        unfold getCellAt
        rw [hc.1, List.get?_map, List.get?_range hi]
        rfl
      have e2 : getCellAt (createDerivedFeatures df) "is_fully_paid" i
          = Cell.int (isFullyPaidFlag (getCellAt df "loan_status" i)) := by
        unfold getCellAt
        rw [hc.2, List.get?_map, List.get?_range hi]
        rfl
      rw [e1] at hd
      rw [e2] at hf
      exact flagsExclusive (getCellAt df "loan_status" i)
        ⟨Cell.int.inj hd, Cell.int.inj hf⟩
    · have hge : nRows df ≤ i := Nat.not_lt.mp hi
      have e1 : getCellAt (createDerivedFeatures df) "is_default" i = Cell.null := by
        unfold getCellAt
        rw [hc.1]
        rw [List.get?_eq_none.mpr (by simpa using hge)]
        rfl
      rw [e1] at hd
      exact Cell.noConfusion hd

/-- C9 witness: a concrete frame whose loan_status column holds FULLY PAID and
CHARGED OFF rows never has both flags set at row 0. -/
theorem C9_default_fully_paid_exclusive_witness :
    ¬(getCellAt (createDerivedFeatures
        ⟨[⟨"loan_status", Dtype.objectD, [Cell.str "FULLY PAID", Cell.str "CHARGED OFF"]⟩]⟩)
        "is_default" 0 = Cell.int 1
      ∧ getCellAt (createDerivedFeatures
        ⟨[⟨"loan_status", Dtype.objectD, [Cell.str "FULLY PAID", Cell.str "CHARGED OFF"]⟩]⟩)
        "is_fully_paid" 0 = Cell.int 1) :=
  C9_default_fully_paid_exclusive.2
    ⟨[⟨"loan_status", Dtype.objectD, [Cell.str "FULLY PAID", Cell.str "CHARGED OFF"]⟩]⟩ 0
    (by decide)

-- ===================== C5 : the imputation policy table =====================

/-- C5: for every column with at least one missing value (and one of the three
dtypes the stage distinguishes — object, numeric, datetime; the category dtype
only exists after this stage), the per-column body of `_handle_missing_values`
computes exactly the spec's policy table `specMissingPolicy`: mode (or the
UNKNOWN sentinel) for categorical/text at ≤30% missing, UNKNOWN above 30%;
median for numeric, except 0 for rate/percentage-named columns above 30%;
dates left null. -/
theorem C5_missing_policy_refinement (n : Nat) (c : Col) (hmiss : countNulls c.cells ≠ 0)
    (hdt : c.dtype ≠ Dtype.categoryD) :
    imputeColumn n c = specMissingPolicy n c := by
  obtain ⟨nm, dt, cells⟩ := c
  unfold imputeColumn specMissingPolicy
  simp only at hmiss hdt ⊢
  rw [if_neg hmiss, if_neg hmiss]
  cases dt with
  | objectD =>
    dsimp only
    by_cases hp : (30 : Rat) < ((countNulls cells : Rat) / (n : Rat)) * 100
    · rw [if_pos hp]
      have hdec : decide (((countNulls cells : Rat) / (n : Rat)) * 100 ≤ 30) = false :=
        decide_eq_false (not_le.mpr hp)
      rw [hdec, if_neg Bool.false_ne_true]
    · rw [if_neg hp]
      have hdec : decide (((countNulls cells : Rat) / (n : Rat)) * 100 ≤ 30) = true :=
        decide_eq_true (not_lt.mp hp)
      rw [hdec, if_pos rfl]
  | numericD =>
    dsimp only
    by_cases hp : (30 : Rat) < ((countNulls cells : Rat) / (n : Rat)) * 100
    · rw [if_pos hp]
      have hdec : decide (((countNulls cells : Rat) / (n : Rat)) * 100 ≤ 30) = false :=
        decide_eq_false (not_le.mpr hp)
      rw [hdec, if_neg Bool.false_ne_true]
    · rw [if_neg hp]
      have hdec : decide (((countNulls cells : Rat) / (n : Rat)) * 100 ≤ 30) = true :=
        decide_eq_true (not_lt.mp hp)
      rw [hdec, if_pos rfl]
  | datetimeD => rfl
  | categoryD => exact absurd rfl hdt

/-- C5 witness: a text column with one missing value out of four rows (25%) is
filled with its mode, matching the policy table. -/
theorem C5_missing_policy_refinement_witness :
    imputeColumn 4 ⟨"emp_title", Dtype.objectD,
        [Cell.str "b", Cell.str "a", Cell.str "b", Cell.null]⟩
      = specMissingPolicy 4 ⟨"emp_title", Dtype.objectD,
        [Cell.str "b", Cell.str "a", Cell.str "b", Cell.null]⟩ :=
  C5_missing_policy_refinement 4 _ (by decide) (by decide)

-- ===================== C6 : 100%-null columns =====================

/-- C6 counterexample: a 100%-null numeric column without a rate/percentage
name is left untouched by `_handle_missing_values` — `fillna(median)` with an
undefined (NaN) median fills nothing — so the column still contains nulls after
the call, contradicting the claim that every value is imputed. -/
theorem C6_all_null_column_counterexample :
    imputeColumn 2 ⟨"foo", Dtype.numericD, [Cell.null, Cell.null]⟩
        = ⟨"foo", Dtype.numericD, [Cell.null, Cell.null]⟩
    ∧ Cell.null ∈ (imputeColumn 2 ⟨"foo", Dtype.numericD, [Cell.null, Cell.null]⟩).cells := by
  with_unfolding_all decide

/-- C6 amended: a 100%-null column never raises (the imputation is a total
function) and is imputed per its type — object/text columns become the UNKNOWN
sentinel throughout, numeric rate/percentage-named columns become 0 throughout,
but other numeric columns are left entirely null (the median of an empty value
set is null and fills nothing), and datetime columns are left null. -/
theorem C6_all_null_column_behavior (n : Nat) (c : Col) (hall : ∀ x ∈ c.cells, x = Cell.null)
    (hne : c.cells ≠ []) (hn : n = c.cells.length) :
    (c.dtype = Dtype.objectD →
      (imputeColumn n c).cells = c.cells.map (fun _ => Cell.str "UNKNOWN"))
    ∧ (c.dtype = Dtype.numericD → rateNamed c.name = true →
      (imputeColumn n c).cells = c.cells.map (fun _ => Cell.real 0))
    ∧ (c.dtype = Dtype.numericD → rateNamed c.name = false →
      (imputeColumn n c).cells = c.cells ∧ Cell.null ∈ (imputeColumn n c).cells)
    ∧ (c.dtype = Dtype.datetimeD → (imputeColumn n c).cells = c.cells) := by
  have hcount : countNulls c.cells = c.cells.length := by
    unfold countNulls
    rw [List.filter_eq_self.mpr]
    intro x hx
    simp [hall x hx]
  have hm : countNulls c.cells ≠ 0 := by
    rw [hcount]
    exact fun h0 => hne (List.length_eq_zero.mp h0)
  have hL : ((c.cells.length : Nat) : Rat) ≠ 0 := by
    have hLn : c.cells.length ≠ 0 := fun h0 => hne (List.length_eq_zero.mp h0)
    exact_mod_cast hLn
  have hpct : (30 : Rat) < ((countNulls c.cells : Rat) / (n : Rat)) * 100 := by
    rw [hcount, hn, div_self hL]
    norm_num
  have hmed : medianOfCells c.cells = none := by
    unfold medianOfCells
    have hfm : c.cells.filterMap toRatQ = [] :=
      List.filterMap_eq_nil.mpr (fun x hx => by rw [hall x hx]; rfl)
    rw [hfm]
    rfl
  have hfill : ∀ v : Cell, fillNull v c.cells = c.cells.map (fun _ => v) := by
    intro v
    unfold fillNull
    exact List.map_congr_left (fun x hx => by rw [hall x hx]; simp)
  obtain ⟨nm, dt, cells⟩ := c
  simp only at hall hne hn hcount hm hL hpct hmed hfill ⊢
  unfold imputeColumn
  simp only
  rw [if_neg hm]
  refine ⟨?_, ?_, ?_, ?_⟩
  · intro hd
    subst hd
    dsimp only
    rw [if_pos hpct, hfill]
  · intro hd hr
    subst hd
    dsimp only
    rw [if_pos hpct, if_pos hr, hfill]
  · intro hd hr
    subst hd
    dsimp only
    rw [if_pos hpct, if_neg (by rw [hr]; exact Bool.false_ne_true), hmed]
    refine ⟨rfl, ?_⟩
    obtain ⟨x, hx⟩ := List.exists_mem_of_ne_nil cells hne
    exact hall x hx ▸ hx
  · intro hd
    subst hd
    rfl

/-- C6 amended witness: a 100%-null text column is imputed to the UNKNOWN
sentinel in every row. -/
theorem C6_all_null_column_behavior_witness :
    (imputeColumn 2 ⟨"bar", Dtype.objectD, [Cell.null, Cell.null]⟩).cells
      = [Cell.str "UNKNOWN", Cell.str "UNKNOWN"] := by
  have h := C6_all_null_column_behavior 2 ⟨"bar", Dtype.objectD, [Cell.null, Cell.null]⟩
    (by decide) (by decide) (by decide)
  rw [h.1 rfl]
  rfl

-- ===================== C8 : data-quality issues and report status =====================

-- A frame with all required columns, two identical rows and zero incomes:
-- data-quality issues only.
def dfDupIncome : Df :=
  ⟨[⟨"loan_amnt", Dtype.numericD, [Cell.int 1000, Cell.int 1000]⟩,
    ⟨"int_rate", Dtype.numericD, [Cell.real 10, Cell.real 10]⟩,
    ⟨"issue_d", Dtype.datetimeD, [Cell.date ⟨2018, 12, 1⟩, Cell.date ⟨2018, 12, 1⟩]⟩,
    ⟨"loan_status", Dtype.objectD, [Cell.str "FULLY PAID", Cell.str "FULLY PAID"]⟩,
    ⟨"is_default", Dtype.numericD, [Cell.int 0, Cell.int 0]⟩,
    ⟨"annual_inc", Dtype.numericD, [Cell.int 0, Cell.int 0]⟩]⟩

/-- C8 counterexample: a non-empty frame with all required columns, duplicate
rows and non-positive incomes gets its issues recorded, but the status stays
PASS — `_validate_cleaned_data` never assigns the WARNING status the claim
describes. -/
theorem C8_warning_counterexample :
    (validateCleanedData dfDupIncome).status = "PASS"
    ∧ (validateCleanedData dfDupIncome).issues ≠ []
    ∧ "PASS" ≠ "WARNING" := by
  set_option maxRecDepth 100000 in with_unfolding_all decide

/-- C8 amended: on a non-empty frame with all required columns present,
`_validate_cleaned_data` records data-quality findings (duplicate rows, a
missing-value ratio above the 5% threshold, negative or zero incomes) in the
issues list while the status remains PASS — it is never degraded to WARNING
and never set to FAIL by these issues alone, and the check aborts nothing (it
is a total function). -/
theorem C8_quality_issues_status (df : Df) (hrows : nRows df ≠ 0)
    (hreq : ∀ nm ∈ requiredColumns, hasCol df nm = true) :
    (validateCleanedData df).status = "PASS"
    ∧ (0 < countDuplicateRows df →
        (toString (countDuplicateRows df) ++ " lignes dupliquées")
          ∈ (validateCleanedData df).issues)
    ∧ ((nRows df : Rat) * (df.cols.length : Rat) * (5 / 100) < (totalMissing df : Rat) →
        ("Trop de valeurs manquantes: " ++ toString (totalMissing df))
          ∈ (validateCleanedData df).issues)
    ∧ (hasCol df "annual_inc" = true → 0 < negIncomeCount df →
        (toString (negIncomeCount df) ++ " revenus annuels négatifs ou nuls")
          ∈ (validateCleanedData df).issues) := by
  have hempty : ¬(nRows df = 0 ∨ df.cols = []) := by
    rintro (h | h)
    · exact hrows h
    · exact hrows (by simp [nRows, h])
  have hmr : requiredColumns.filter (fun nm => ¬hasCol df nm) = [] := by
    rw [List.filter_eq_nil]
    intro nm hnm
    simp [hreq nm hnm]
  refine ⟨?_, ?_, ?_, ?_⟩
  · simp only [validateCleanedData]
    rw [hmr]
    simp [hempty]
  · intro hdup
    simp only [validateCleanedData]
    rw [hmr]
    simp [hempty, hdup]
  · intro hmv
    simp only [validateCleanedData]
    rw [hmr]
    simp [hempty, hmv]
  · intro hinc hneg
    simp only [validateCleanedData]
    rw [hmr]
    simp [hempty, hinc, hneg]

/-- C8 amended witness: the duplicate-and-zero-income frame keeps status PASS
while its duplicate-row and non-positive-income issues are recorded. -/
theorem C8_quality_issues_status_witness :
    (validateCleanedData dfDupIncome).status = "PASS"
    ∧ "1 lignes dupliquées" ∈ (validateCleanedData dfDupIncome).issues
    ∧ "2 revenus annuels négatifs ou nuls" ∈ (validateCleanedData dfDupIncome).issues := by
  have h := C8_quality_issues_status dfDupIncome (by decide) (by decide)
  refine ⟨h.1, ?_, ?_⟩
  · have hdup : 0 < countDuplicateRows dfDupIncome := by decide
    have h2 := h.2.1 hdup
    have heq : toString (countDuplicateRows dfDupIncome) ++ " lignes dupliquées"
        = "1 lignes dupliquées" := by decide
    exact heq ▸ h2
  · have hneg : 0 < negIncomeCount dfDupIncome := by with_unfolding_all decide
    have h3 := h.2.2.2 (by decide) hneg
    have heq : toString (negIncomeCount dfDupIncome) ++ " revenus annuels négatifs ou nuls"
        = "2 revenus annuels négatifs ou nuls" := by with_unfolding_all decide
    exact heq ▸ h3

-- ===================== C1 : the critical-column null guarantee =====================

lemma filterByMask_nil (mask : List Bool) : filterByMask mask [] = [] := by
  cases mask <;> rfl

lemma mem_filterByMask {mask : List Bool} {xs : List Cell} {x : Cell}
    (h : x ∈ filterByMask mask xs) :
    ∃ i, mask.get? i = some true ∧ xs.get? i = some x := by
  induction mask generalizing xs with
  | nil => simp [filterByMask] at h
  | cons b bs ih =>
    cases xs with
    | nil => simp [filterByMask] at h
    | cons y ys =>
      by_cases hb : b = true
      · subst hb
        simp only [filterByMask, if_true] at h
        rcases List.mem_cons.mp h with rfl | hmem
        · exact ⟨0, rfl, rfl⟩
        · obtain ⟨i, h1, h2⟩ := ih hmem
          exact ⟨i + 1, h1, h2⟩
      · have hb' : b = false := Bool.eq_false_iff.mpr hb
        subst hb'
        simp only [filterByMask, Bool.false_eq_true, if_false] at h
        obtain ⟨i, h1, h2⟩ := ih h
        exact ⟨i + 1, h1, h2⟩

lemma hasCol_dropCritical (d : Df) (nm : String) :
    hasCol (dropCriticalNullRows d) nm = hasCol d nm := by
  unfold dropCriticalNullRows hasCol
  rw [List.any_map]
  congr 1

lemma getColCells_dropCritical (d : Df) (nm : String) :
    getColCells (dropCriticalNullRows d) nm
      = filterByMask (criticalMask d) (getColCells d nm) := by
  unfold dropCriticalNullRows getColCells findCol
  rw [List.find?_map]
  have hp : ((fun c : Col => decide (c.name = nm)) ∘
      (fun c : Col => { c with cells := filterByMask (criticalMask d) c.cells }))
      = (fun c : Col => decide (c.name = nm)) := by
    funext c
    rfl
  rw [hp]
  cases hf : d.cols.find? (fun c : Col => decide (c.name = nm)) with
  | none => simp [filterByMask_nil]
  | some c => simp

/-- C1 amended: after a successful `_handle_missing_values` (the row-dropping
stage), every critical column is present and null-free; the claim's stronger
statement — that the guarantee survives the later date-conversion and
text-cleaning steps of `clean_loan_data` — is refuted by the counterexample,
where date conversion coerces an ISO-formatted issue_d value back to null. -/
theorem C1_critical_nulls_after_missing_stage (df df2 : Df)
    (h : handleMissingValues df = some df2) :
    ∀ nm ∈ criticalColumns, hasCol df2 nm = true ∧ Cell.null ∉ getColCells df2 nm := by
  unfold handleMissingValues at h
  dsimp only at h
  split_ifs at h with h1 h2
  have hall : criticalColumns.all
      (fun nm => hasCol (⟨df.cols.map (imputeColumn (nRows df))⟩ : Df) nm) = true := h2
  rw [Option.some.injEq] at h
  subst h
  intro nm hnm
  have hhas : hasCol (⟨df.cols.map (imputeColumn (nRows df))⟩ : Df) nm = true := by
    have := List.all_eq_true.mp hall nm hnm
    simpa using this
  refine ⟨?_, ?_⟩
  · rw [hasCol_dropCritical]
    exact hhas
  · rw [getColCells_dropCritical]
    intro hmem
    obtain ⟨i, hmask, hcell⟩ := mem_filterByMask hmem
    unfold criticalMask at hmask
    rw [List.get?_map] at hmask
    by_cases hi : i < nRows (⟨df.cols.map (imputeColumn (nRows df))⟩ : Df)
    · rw [List.get?_range hi] at hmask
      have hpred := Option.some.inj hmask
      have hj := List.all_eq_true.mp hpred nm hnm
      have hne2 : getCellAt (⟨df.cols.map (imputeColumn (nRows df))⟩ : Df) nm i ≠ Cell.null := by
        simpa using hj
      apply hne2
      unfold getCellAt
      rw [hcell]
      rfl
    · rw [List.get?_eq_none.mpr (by simpa using Nat.not_lt.mp hi)] at hmask
      simp at hmask

-- The C1 frame: issue_d holds two differently-formatted date strings and
-- emp_title one missing value (so the imputation loop runs).
def dfMixedDates : Df :=
  ⟨[⟨"loan_amnt", Dtype.numericD, [Cell.int 10000, Cell.int 20000]⟩,
    ⟨"issue_d", Dtype.objectD, [Cell.str "Dec-2018", Cell.str "2019-01-05"]⟩,
    ⟨"loan_status", Dtype.objectD, [Cell.str "Fully Paid", Cell.str "Charged Off"]⟩,
    ⟨"emp_title", Dtype.objectD, [Cell.str "Engineer", Cell.null]⟩]⟩

/-- C1 counterexample: `clean_loan_data` with handle_missing enabled (the
default configuration) returns a frame whose critical column issue_d contains
a null — the first date format "%b-%Y" wins on "Dec-2018", so "2019-01-05" is
coerced to NaT by the date-conversion step that runs after the row-dropping
step, and no later step removes the row. -/
theorem C1_critical_nulls_counterexample :
    getColCells ((cleanLoanData defaultCleanConfig dfMixedDates).getD ⟨[]⟩) "issue_d"
      = [Cell.date ⟨2018, 12, 1⟩, Cell.null]
    ∧ Cell.null ∈ getColCells ((cleanLoanData defaultCleanConfig dfMixedDates).getD ⟨[]⟩) "issue_d"
    ∧ defaultCleanConfig.handle_missing = true
    ∧ "issue_d" ∈ criticalColumns := by
  set_option maxRecDepth 100000 in with_unfolding_all decide

/-- C1 amended witness: on the mixed-format frame, `_handle_missing_values`
itself does leave the critical column issue_d present and null-free. -/
theorem C1_critical_nulls_after_missing_stage_witness :
    hasCol ((handleMissingValues dfMixedDates).getD ⟨[]⟩) "issue_d" = true
    ∧ Cell.null ∉ getColCells ((handleMissingValues dfMixedDates).getD ⟨[]⟩) "issue_d" := by
  have hs : (handleMissingValues dfMixedDates).isSome = true := by
    set_option maxRecDepth 100000 in with_unfolding_all decide
  have h : handleMissingValues dfMixedDates
      = some ((handleMissingValues dfMixedDates).getD ⟨[]⟩) := by
    rcases ho : handleMissingValues dfMixedDates with _ | d
    · rw [ho] at hs
      simp at hs
    · simp
  exact C1_critical_nulls_after_missing_stage dfMixedDates _ h "issue_d" (by decide)
